import Mathlib

/-!
# Verification of `src/config/database.js`

A shallow embedding of the MongoDB configuration builder and connection cache of
the repository, followed by theorems about it.

* JavaScript strings are Lean `String`s; `undefined` is `none`.
* `process.env` is a snapshot `Env : Var → Option String`.
* JavaScript Numbers produced by `Number.parseInt` are `JSNumber`s: integer-valued
  doubles (with a sign, so that `-0` exists), the two infinities and `NaN`.
* The options object is a record of optional fields; assignments are record updates,
  made in the order of the source.
* The module variables `cachedClient`, `cachedDb`, `clientPromise` are a `Cache`;
  the promise machinery is made explicit in a `World`.
-/

namespace Database

/-! ## JavaScript built-ins used by the module -/

/-- ECMAScript `WhiteSpace` and `LineTerminator` code points: what `String.prototype.trim`
and the `TrimString` step of `parseInt` strip. -/
def isWhiteSpace (c : Char) : Bool :=
  let n := c.toNat
  n = 0x09 || n = 0x0A || n = 0x0B || n = 0x0C || n = 0x0D || n = 0x20 || n = 0xA0 ||
  n = 0x1680 || (0x2000 ≤ n && n ≤ 0x200A) || n = 0x2028 || n = 0x2029 || n = 0x202F ||
  n = 0x205F || n = 0x3000 || n = 0xFEFF

/-- Lower-casing of one code point, as `String.prototype.toLowerCase` does it, exact on
every code point whose lower-case form contains an ASCII character: `A`..`Z`, the Kelvin
sign U+212A (to `k`) and U+0130 (to `i` followed by U+0307). Every other code point
lower-cases to non-ASCII code points only; the model leaves those unchanged, which changes
no comparison with an ASCII string. -/
def lowerChar (c : Char) : List Char :=
  if 0x41 ≤ c.toNat ∧ c.toNat ≤ 0x5A then [Char.ofNat (c.toNat + 32)]
  else if c.toNat = 0x212A then ['k']
  else if c.toNat = 0x130 then ['i', Char.ofNat 0x307]
  else [c]

/-- The built-in `String.prototype.toLowerCase`. -/
def toLowerCase (s : String) : String := ⟨s.data.flatMap lowerChar⟩

/-- The built-in `String.prototype.trim`: white space is removed from both ends. -/
def trim (s : String) : String :=
  ⟨((s.data.dropWhile isWhiteSpace).reverse.dropWhile isWhiteSpace).reverse⟩

/-- JavaScript truthiness of `process.env.X`: defined and not the empty string. -/
def truthy (value : Option String) : Bool :=
  match value with
  | none => false
  | some v => v ≠ ""

/-- Values of `Number.parseInt`: `NaN`, an integer-valued double with its sign
(`finite true 0` is `-0`), or an infinity. -/
inductive JSNumber where
  | nan
  | finite (negative : Bool) (magnitude : Nat)
  | infinity (negative : Bool)
  deriving DecidableEq

/-- The mathematical integer a Number stands for, when it is finite (`-0` is `0`). -/
def JSNumber.toInt? : JSNumber → Option Int
  | .finite negative magnitude => some (if negative then -(magnitude : Int) else magnitude)
  | _ => none

/-- Number of binary digits of `m`, by halving at most `fuel` times. -/
def bitLengthAux : Nat → Nat → Nat
  | 0, _ => 0
  | fuel + 1, m => if m = 0 then 0 else bitLengthAux fuel (m / 2) + 1

/-- Number of binary digits of `m`. -/
def bitLength (m : Nat) : Nat := bitLengthAux m m

/-- The Number value of the integer `± m`: IEEE-754 binary64 round-to-nearest, ties to
even. Integers below `2^53` are exact; above, the 53 leading bits are kept and rounded;
what rounds to `2^1024` or more (more than 1024 binary digits) is an infinity. -/
def toDouble (negative : Bool) (m : Nat) : JSNumber :=
  if m < 2 ^ 53 then .finite negative m
  else
    let e := bitLength m - 53
    let q := m / 2 ^ e
    let r := m % 2 ^ e
    let half := 2 ^ (e - 1)
    let q1 := if half < r ∨ (r = half ∧ q % 2 = 1) then q + 1 else q
    let v := q1 * 2 ^ e
    if 1024 < bitLength v then .infinity negative else .finite negative v

/-- A decimal digit `0`..`9`. -/
def isDigit (c : Char) : Bool := 0x30 ≤ c.toNat && c.toNat ≤ 0x39

/-- `Number.parseInt(input, 10)`: leading white space is skipped, one sign is read, the
longest run of decimal digits is taken (none gives `NaN`), and its value is converted to a
Number. With radix 10 no `0x` is stripped. ECMAScript lets an implementation replace the
digits after the 20th significant one by zeros; the model converts the exact value, and the
two agree on every run of at most 20 significant digits. -/
def Number.parseInt10 (input : String) : JSNumber :=
  let S := input.data.dropWhile isWhiteSpace
  let negative : Bool := S.head? = some '-'
  let S := match S with
    | [] => []
    | c :: rest => if c = '-' ∨ c = '+' then rest else c :: rest
  let Z := S.takeWhile isDigit
  if Z = [] then .nan
  else toDouble negative (Z.foldl (fun acc c => 10 * acc + (c.toNat - 0x30)) 0)

/-- The built-in `Number.isNaN`. -/
def Number.isNaN (x : JSNumber) : Bool :=
  match x with
  | .nan => true
  | _ => false

/-! ## The parsers of the module -/

/-- The set `truthyValues` of the module. -/
def truthyValues : List String := ["1", "true", "yes", "y", "on"]

/-- The set `falsyValues` of the module. -/
def falsyValues : List String := ["0", "false", "no", "n", "off"]

/-- `parseBoolean`: a value that is not a string gives `undefined`; a string is trimmed
and lower-cased and looked up in the two sets. -/
def parseBoolean (value : Option String) : Option Bool :=
  match value with
  | none => none
  | some v =>
    let normalized := toLowerCase (trim v)
    if truthyValues.contains normalized then some true
    else if falsyValues.contains normalized then some false
    else none

/-- `parseInteger`: `undefined` stays `undefined`; otherwise `Number.parseInt(value, 10)`,
with `NaN` turned into `undefined`. -/
def parseInteger (value : Option String) : Option JSNumber :=
  match value with
  | none => none
  | some v =>
    let parsed := Number.parseInt10 v
    if Number.isNaN parsed then none else some parsed

/-! ## The spec's notions of an integer-like string -/

/-- The value of a run of decimal digits read in base 10, most significant digit first,
through Mathlib's `Nat.ofDigits`. -/
def decimalValue (ds : List Char) : Nat :=
  Nat.ofDigits 10 ((ds.map fun c => c.toNat - 0x30).reverse)

/-- The spec's integer-like strings, in its words "an optional sign followed by one or more
decimal digits": the integer such a string denotes, and `none` for every other string. -/
def denotedInteger (s : String) : Option Int :=
  match s.data with
  | [] => none
  | c :: rest =>
    if c = '-' then
      if rest ≠ [] ∧ rest.all isDigit then some (-(decimalValue rest : Int)) else none
    else if c = '+' then
      if rest ≠ [] ∧ rest.all isDigit then some (decimalValue rest : Int) else none
    else if (c :: rest).all isDigit then some (decimalValue (c :: rest) : Int)
    else none

/-- A string that, after leading white space and one optional sign, goes on with a decimal
digit. -/
def startsWithInteger (s : String) : Bool :=
  match s.data.dropWhile isWhiteSpace with
  | [] => false
  | c :: rest =>
    if c = '-' ∨ c = '+' then
      match rest with
      | [] => false
      | d :: _ => isDigit d
    else isDigit c

/-! ## The configuration builder -/

/-- The environment variables the module reads. -/
inductive Var where
  | MONGODB_URI
  | MONGODB_DB_NAME
  | MONGODB_SERVER_SELECTION_TIMEOUT_MS
  | MONGODB_APP_NAME
  | MONGODB_DIRECT_CONNECTION
  | MONGODB_TLS
  | MONGODB_TLS_CA_FILE
  | MONGODB_TLS_ALLOW_INVALID_CERTS
  | MONGODB_TLS_ALLOW_INVALID_HOSTNAMES
  | MONGODB_TLS_INSECURE
  | MONGODB_TLS_CERTIFICATE_FILE
  | MONGODB_TLS_CERTIFICATE_KEY_FILE
  | MONGODB_TLS_CERTIFICATE_KEY_FILE_PASSWORD
  | MONGODB_MAX_POOL_SIZE
  | MONGODB_MIN_POOL_SIZE
  | MONGODB_WAIT_QUEUE_TIMEOUT_MS
  | MONGODB_COMPRESSORS
  | MONGODB_SERVER_API_VERSION
  | MONGODB_SERVER_API_STRICT
  | MONGODB_SERVER_API_DEPRECATION_ERRORS
  deriving DecidableEq

/-- A snapshot of `process.env`: each variable is a string or is unset. -/
abbrev Env := Var → Option String

/-- The environment in which no variable is set. -/
def emptyEnv : Env := fun _ => none

/-- The snapshot `env` with variable `x` set to `v` (`none` removes it). -/
def setVar (env : Env) (x : Var) (v : Option String) : Env :=
  fun y => if y = x then v else env y

/-- The `serverApi` object literal of the options. -/
structure ServerApi where
  version : String
  strict : Option Bool
  deprecationErrors : Option Bool
  deriving DecidableEq

/-- The options object handed to `new MongoClient`; a field that was never assigned is
`none`. -/
structure MongoClientOptions where
  serverSelectionTimeoutMS : Option JSNumber
  appName : Option String
  directConnection : Option Bool
  tls : Option Bool
  tlsCAFile : Option String
  tlsAllowInvalidCertificates : Option Bool
  tlsAllowInvalidHostnames : Option Bool
  tlsInsecure : Option Bool
  tlsCertificateFile : Option String
  tlsCertificateKeyFile : Option String
  tlsCertificateKeyFilePassword : Option String
  maxPoolSize : Option JSNumber
  minPoolSize : Option JSNumber
  waitQueueTimeoutMS : Option JSNumber
  compressors : Option String
  serverApi : Option ServerApi
  deriving DecidableEq

/-- The empty object literal `{}`. -/
def emptyOptions : MongoClientOptions :=
  ⟨none, none, none, none, none, none, none, none, none, none, none, none, none, none, none,
    none⟩

/-- `buildMongoClientOptions`, statement by statement; `env` is `process.env`. -/
def buildMongoClientOptions (env : Env) : MongoClientOptions :=
  let options := emptyOptions
  let timeoutMs := parseInteger (env .MONGODB_SERVER_SELECTION_TIMEOUT_MS)
  let options := { options with
    serverSelectionTimeoutMS := some (timeoutMs.getD (.finite false 5000)) }
  let options :=
    if truthy (env .MONGODB_APP_NAME) then
      { options with appName := env .MONGODB_APP_NAME }
    else options
  let directConnection := parseBoolean (env .MONGODB_DIRECT_CONNECTION)
  let options :=
    if directConnection ≠ none then { options with directConnection := directConnection }
    else options
  let explicitTls := parseBoolean (env .MONGODB_TLS)
  let options := if explicitTls ≠ none then { options with tls := explicitTls } else options
  let options :=
    if truthy (env .MONGODB_TLS_CA_FILE) then
      { options with tls := some true, tlsCAFile := env .MONGODB_TLS_CA_FILE }
    else options
  let allowInvalidCertificates := parseBoolean (env .MONGODB_TLS_ALLOW_INVALID_CERTS)
  let options :=
    if allowInvalidCertificates ≠ none then
      { options with tls := some true, tlsAllowInvalidCertificates := allowInvalidCertificates }
    else options
  let allowInvalidHostnames := parseBoolean (env .MONGODB_TLS_ALLOW_INVALID_HOSTNAMES)
  let options :=
    if allowInvalidHostnames ≠ none then
      { options with tls := some true, tlsAllowInvalidHostnames := allowInvalidHostnames }
    else options
  let tlsInsecure := parseBoolean (env .MONGODB_TLS_INSECURE)
  let options :=
    if tlsInsecure = some true then
      { options with tls := some true, tlsInsecure := some true }
    else options
  let options :=
    if truthy (env .MONGODB_TLS_CERTIFICATE_FILE) then
      { options with tls := some true, tlsCertificateFile := env .MONGODB_TLS_CERTIFICATE_FILE }
    else options
  let options :=
    if truthy (env .MONGODB_TLS_CERTIFICATE_KEY_FILE) then
      { options with
        tls := some true, tlsCertificateKeyFile := env .MONGODB_TLS_CERTIFICATE_KEY_FILE }
    else options
  let options :=
    if truthy (env .MONGODB_TLS_CERTIFICATE_KEY_FILE_PASSWORD) then
      { options with
        tls := some true
        tlsCertificateKeyFilePassword := env .MONGODB_TLS_CERTIFICATE_KEY_FILE_PASSWORD }
    else options
  let maxPoolSize := parseInteger (env .MONGODB_MAX_POOL_SIZE)
  let options :=
    if maxPoolSize ≠ none then { options with maxPoolSize := maxPoolSize } else options
  let minPoolSize := parseInteger (env .MONGODB_MIN_POOL_SIZE)
  let options :=
    if minPoolSize ≠ none then { options with minPoolSize := minPoolSize } else options
  let waitQueueTimeoutMS := parseInteger (env .MONGODB_WAIT_QUEUE_TIMEOUT_MS)
  let options :=
    if waitQueueTimeoutMS ≠ none then { options with waitQueueTimeoutMS := waitQueueTimeoutMS }
    else options
  let options :=
    if truthy (env .MONGODB_COMPRESSORS) then
      { options with compressors := env .MONGODB_COMPRESSORS }
    else options
  let options :=
    match env .MONGODB_SERVER_API_VERSION with
    | some version =>
      if version ≠ "" then
        let strict := parseBoolean (env .MONGODB_SERVER_API_STRICT)
        let deprecationErrors := parseBoolean (env .MONGODB_SERVER_API_DEPRECATION_ERRORS)
        { options with serverApi := some ⟨version, strict, deprecationErrors⟩ }
      else options
    | none => options
  options

/-- One guarded block of assignments, `if (c) { ... }`, applied to the options so far. -/
def assignIf (c : Prop) [Decidable c] (f : MongoClientOptions → MongoClientOptions)
    (o : MongoClientOptions) : MongoClientOptions :=
  if c then f o else o

/-- The options after the statements of `buildMongoClientOptions` that precede the
`serverApi` block, written as a pipeline of guarded assignments (the same statements in the
same order; `build_eq_staged` below relates the two). -/
def stagedOptions (env : Env) : MongoClientOptions :=
  emptyOptions
  |> (fun options => { options with
        serverSelectionTimeoutMS :=
          some ((parseInteger (env .MONGODB_SERVER_SELECTION_TIMEOUT_MS)).getD
            (.finite false 5000)) })
  |> assignIf (truthy (env .MONGODB_APP_NAME))
      (fun options => { options with appName := env .MONGODB_APP_NAME })
  |> assignIf (parseBoolean (env .MONGODB_DIRECT_CONNECTION) ≠ none)
      (fun options => { options with
        directConnection := parseBoolean (env .MONGODB_DIRECT_CONNECTION) })
  |> assignIf (parseBoolean (env .MONGODB_TLS) ≠ none)
      (fun options => { options with tls := parseBoolean (env .MONGODB_TLS) })
  |> assignIf (truthy (env .MONGODB_TLS_CA_FILE))
      (fun options => { options with tls := some true, tlsCAFile := env .MONGODB_TLS_CA_FILE })
  |> assignIf (parseBoolean (env .MONGODB_TLS_ALLOW_INVALID_CERTS) ≠ none)
      (fun options => { options with
        tls := some true
        tlsAllowInvalidCertificates := parseBoolean (env .MONGODB_TLS_ALLOW_INVALID_CERTS) })
  |> assignIf (parseBoolean (env .MONGODB_TLS_ALLOW_INVALID_HOSTNAMES) ≠ none)
      (fun options => { options with
        tls := some true
        tlsAllowInvalidHostnames := parseBoolean (env .MONGODB_TLS_ALLOW_INVALID_HOSTNAMES) })
  |> assignIf (parseBoolean (env .MONGODB_TLS_INSECURE) = some true)
      (fun options => { options with tls := some true, tlsInsecure := some true })
  |> assignIf (truthy (env .MONGODB_TLS_CERTIFICATE_FILE))
      (fun options => { options with
        tls := some true, tlsCertificateFile := env .MONGODB_TLS_CERTIFICATE_FILE })
  |> assignIf (truthy (env .MONGODB_TLS_CERTIFICATE_KEY_FILE))
      (fun options => { options with
        tls := some true, tlsCertificateKeyFile := env .MONGODB_TLS_CERTIFICATE_KEY_FILE })
  |> assignIf (truthy (env .MONGODB_TLS_CERTIFICATE_KEY_FILE_PASSWORD))
      (fun options => { options with
        tls := some true
        tlsCertificateKeyFilePassword := env .MONGODB_TLS_CERTIFICATE_KEY_FILE_PASSWORD })
  |> assignIf (parseInteger (env .MONGODB_MAX_POOL_SIZE) ≠ none)
      (fun options => { options with maxPoolSize := parseInteger (env .MONGODB_MAX_POOL_SIZE) })
  |> assignIf (parseInteger (env .MONGODB_MIN_POOL_SIZE) ≠ none)
      (fun options => { options with minPoolSize := parseInteger (env .MONGODB_MIN_POOL_SIZE) })
  |> assignIf (parseInteger (env .MONGODB_WAIT_QUEUE_TIMEOUT_MS) ≠ none)
      (fun options => { options with
        waitQueueTimeoutMS := parseInteger (env .MONGODB_WAIT_QUEUE_TIMEOUT_MS) })
  |> assignIf (truthy (env .MONGODB_COMPRESSORS))
      (fun options => { options with compressors := env .MONGODB_COMPRESSORS })

/-- The result of `buildMongoClientOptions` described field by field: each field as a
function of the environment (`build_eq_optionsByField` below proves the description). The
`tls` field lists the forcing rules from the last applied to the first. -/
def optionsByField (env : Env) : MongoClientOptions where
  serverSelectionTimeoutMS :=
    some ((parseInteger (env .MONGODB_SERVER_SELECTION_TIMEOUT_MS)).getD (.finite false 5000))
  appName := if truthy (env .MONGODB_APP_NAME) then env .MONGODB_APP_NAME else none
  directConnection := parseBoolean (env .MONGODB_DIRECT_CONNECTION)
  tls :=
    if truthy (env .MONGODB_TLS_CERTIFICATE_KEY_FILE_PASSWORD) then some true
    else if truthy (env .MONGODB_TLS_CERTIFICATE_KEY_FILE) then some true
    else if truthy (env .MONGODB_TLS_CERTIFICATE_FILE) then some true
    else if parseBoolean (env .MONGODB_TLS_INSECURE) = some true then some true
    else if parseBoolean (env .MONGODB_TLS_ALLOW_INVALID_HOSTNAMES) ≠ none then some true
    else if parseBoolean (env .MONGODB_TLS_ALLOW_INVALID_CERTS) ≠ none then some true
    else if truthy (env .MONGODB_TLS_CA_FILE) then some true
    else parseBoolean (env .MONGODB_TLS)
  tlsCAFile := if truthy (env .MONGODB_TLS_CA_FILE) then env .MONGODB_TLS_CA_FILE else none
  tlsAllowInvalidCertificates := parseBoolean (env .MONGODB_TLS_ALLOW_INVALID_CERTS)
  tlsAllowInvalidHostnames := parseBoolean (env .MONGODB_TLS_ALLOW_INVALID_HOSTNAMES)
  tlsInsecure :=
    if parseBoolean (env .MONGODB_TLS_INSECURE) = some true then some true else none
  tlsCertificateFile :=
    if truthy (env .MONGODB_TLS_CERTIFICATE_FILE) then env .MONGODB_TLS_CERTIFICATE_FILE
    else none
  tlsCertificateKeyFile :=
    if truthy (env .MONGODB_TLS_CERTIFICATE_KEY_FILE) then
      env .MONGODB_TLS_CERTIFICATE_KEY_FILE
    else none
  tlsCertificateKeyFilePassword :=
    if truthy (env .MONGODB_TLS_CERTIFICATE_KEY_FILE_PASSWORD) then
      env .MONGODB_TLS_CERTIFICATE_KEY_FILE_PASSWORD
    else none
  maxPoolSize := parseInteger (env .MONGODB_MAX_POOL_SIZE)
  minPoolSize := parseInteger (env .MONGODB_MIN_POOL_SIZE)
  waitQueueTimeoutMS := parseInteger (env .MONGODB_WAIT_QUEUE_TIMEOUT_MS)
  compressors := if truthy (env .MONGODB_COMPRESSORS) then env .MONGODB_COMPRESSORS else none
  serverApi :=
    match env .MONGODB_SERVER_API_VERSION with
    | some version =>
      if version ≠ "" then
        some ⟨version, parseBoolean (env .MONGODB_SERVER_API_STRICT),
          parseBoolean (env .MONGODB_SERVER_API_DEPRECATION_ERRORS)⟩
      else none
    | none => none

/-! ## The connection cache -/

/-- A JavaScript error value: its `name`, `message` and `code` properties and, when it was
built with `{ cause }`, the error it wraps. -/
inductive JSError where
  | plain (name message : String) (code : Option String)
  | caused (name message : String) (code : Option String) (cause : JSError)
  deriving DecidableEq

/-- The `name` property. -/
def JSError.name : JSError → String
  | .plain name _ _ => name
  | .caused name _ _ _ => name

/-- The `message` property. -/
def JSError.message : JSError → String
  | .plain _ message _ => message
  | .caused _ message _ _ => message

/-- The `code` property, `undefined` when absent. -/
def JSError.code : JSError → Option String
  | .plain _ _ code => code
  | .caused _ _ code _ => code

/-- The `cause` property, `undefined` when absent. -/
def JSError.cause : JSError → Option JSError
  | .plain _ _ _ => none
  | .caused _ _ _ cause => some cause

/-- `new MongoConfigurationError(message, options)`: an `Error` whose name is
`MongoConfigurationError`, with the cause given in `options`, if any. -/
def MongoConfigurationError (message : String) (cause : Option JSError) : JSError :=
  match cause with
  | none => .plain "MongoConfigurationError" message none
  | some e => .caused "MongoConfigurationError" message none e

/-- A connected `MongoClient` of the driver. -/
structure Client where
  id : Nat
  deriving DecidableEq

/-- A database handle of the driver. -/
structure Db where
  id : Nat
  deriving DecidableEq

/-- What the module uses of the driver: the constructor `new MongoClient(uri, options)`,
which returns or throws (on a connection string or an option it does not accept), and, once
a client is connected, `client.db(name)`, which returns a handle or throws. The driver is
not part of the repository and is a parameter. -/
structure Driver where
  newClient : String → MongoClientOptions → Except JSError Unit
  db : Client → String → Except JSError Db

/-- The object `{ client, db }` that `connectToDatabase` resolves to; each component is
the value of a module variable, hence possibly `null`. -/
structure Connection where
  client : Option Client
  db : Option Db
  deriving DecidableEq

/-- A settled promise: fulfilled with a value or rejected with an error. -/
inductive Settled where
  | fulfilled (value : Connection)
  | rejected (error : JSError)
  deriving DecidableEq

/-- The three module variables. `clientPromise` holds the identity of the memoized promise:
the index of the attempt that created it. -/
structure Cache where
  cachedClient : Option Client
  cachedDb : Option Db
  clientPromise : Option Nat
  deriving DecidableEq

/-- One `new MongoClient(uri, options)` followed by `.connect()`, with the database name
captured by its `.then` callback and the state of the promise `clientPromise` made from it
(`none` while pending). -/
structure Attempt where
  uri : String
  options : MongoClientOptions
  dbName : String
  outcome : Option Settled
  deriving DecidableEq

/-- The module variables together with every connection attempt made so far, oldest
first. -/
structure World where
  cache : Cache
  attempts : List Attempt
  deriving DecidableEq

/-- The state at module load: all three variables `null`, no attempt made. -/
def initialWorld : World := ⟨⟨none, none, none⟩, []⟩

/-- The promise returned by one call of `connectToDatabase`: already fulfilled, already
rejected (the `async` function threw), or following the memoized promise of attempt `k`. -/
inductive CallResult where
  | fulfilled (value : Connection)
  | rejected (error : JSError)
  | following (k : Nat)
  deriving DecidableEq

/-- What a call's promise has settled to in world `w`, if it has. -/
def CallResult.settled (r : CallResult) (w : World) : Option Settled :=
  match r with
  | .fulfilled value => some (.fulfilled value)
  | .rejected error => some (.rejected error)
  | .following k => (w.attempts[k]?).bind Attempt.outcome

/-- The message of the error thrown when `MONGODB_URI` is missing. -/
def missingUriMessage : String := "Змінна оточення MONGODB_URI не налаштована."

/-- The message of the error thrown when `MONGODB_DB_NAME` is missing. -/
def missingDbNameMessage : String := "Змінна оточення MONGODB_DB_NAME не налаштована."

/-- The remediation text of the translated TLS error: four sentences joined by a blank. -/
def tlsGuidanceMessage : String :=
  " ".intercalate
    ["MongoDB Atlas відхилив TLS-з'єднання.",
     "Переконайтеся, що ваш кластер дозволяє підключення з поточної IP-адреси та підтримує TLS 1.2.",
     "Для діагностики можна тимчасово встановити MONGODB_TLS_INSECURE=true або надати власний сертифікат через MONGODB_TLS_CA_FILE.",
     "Також спробуйте запустити Node з NODE_OPTIONS=\"--tls-min-v1.2\" та перевірте значення MONGODB_URI."]

/-- The synchronous part of `connectToDatabase`, up to the promise it returns. With nothing
cached and nothing memoized, `new MongoClient(MONGODB_URI, clientOptions)` is evaluated
first: when the constructor throws, the `async` function is rejected with that error, no
`connect()` is called and no variable is assigned; otherwise `client.connect()` is called
and the promise made from it is memoized. How the attempt ends is delivered later by
`settle`. -/
def connectToDatabase (driver : Driver) (env : Env) (w : World) : World × CallResult :=
  if w.cache.cachedDb ≠ none then
    (w, .fulfilled ⟨w.cache.cachedClient, w.cache.cachedDb⟩)
  else if ¬ truthy (env .MONGODB_URI) then
    (w, .rejected (MongoConfigurationError missingUriMessage none))
  else if ¬ truthy (env .MONGODB_DB_NAME) then
    (w, .rejected (MongoConfigurationError missingDbNameMessage none))
  else
    match w.cache.clientPromise with
    | some k => (w, .following k)
    | none =>
      let clientOptions := buildMongoClientOptions env
      match driver.newClient ((env .MONGODB_URI).getD "") clientOptions with
      | .error e => (w, .rejected e)
      | .ok _ =>
        let k := w.attempts.length
        let attempt : Attempt :=
          ⟨(env .MONGODB_URI).getD "", clientOptions, (env .MONGODB_DB_NAME).getD "", none⟩
        (⟨{ w.cache with clientPromise := some k }, w.attempts ++ [attempt]⟩, .following k)

/-- The `.then` callback of an attempt whose closure captured `dbName`: it assigns
`cachedClient`, then `cachedDb` (unless `db` throws), and returns the pair read back from
the module variables. -/
def onConnected (driver : Driver) (dbName : String) (connectedClient : Client)
    (cache : Cache) : Cache × Settled :=
  let cache := { cache with cachedClient := some connectedClient }
  match driver.db connectedClient dbName with
  | .ok db =>
    let cache := { cache with cachedDb := some db }
    (cache, .fulfilled ⟨cache.cachedClient, cache.cachedDb⟩)
  | .error e => (cache, .rejected e)

/-- The `.catch` callback: it clears `clientPromise` and rethrows, translating the
recognised TLS rejection into a `MongoConfigurationError` that wraps the error. -/
def onFailed (error : JSError) (cache : Cache) : Cache × Settled :=
  let cache := { cache with clientPromise := none }
  if error.name = "MongoServerSelectionError" ∧
      error.cause.bind JSError.code = some "ERR_SSL_TLSV1_ALERT_INTERNAL_ERROR" then
    (cache, .rejected (MongoConfigurationError tlsGuidanceMessage (some error)))
  else (cache, .rejected error)

/-- The `connect()` of attempt `k` ends with `result`: the `.then` callback runs on success,
the `.catch` callback on a failure of `connect()` or of the `.then` callback, and the
promise of attempt `k` settles. An attempt that does not exist or has settled is left
alone. -/
def settle (driver : Driver) (k : Nat) (result : Except JSError Client) (w : World) :
    World :=
  match w.attempts[k]? with
  | none => w
  | some a =>
    if a.outcome ≠ none then w
    else
      let afterThen : Cache × Settled :=
        match result with
        | .ok connectedClient => onConnected driver a.dbName connectedClient w.cache
        | .error e => (w.cache, .rejected e)
      let afterCatch : Cache × Settled :=
        match afterThen.2 with
        | .fulfilled value => (afterThen.1, .fulfilled value)
        | .rejected e => onFailed e afterThen.1
      ⟨afterCatch.1, w.attempts.set k { a with outcome := some afterCatch.2 }⟩

/-- The error the constructor of the drivers for examples throws on a connection string without scheme. -/
def schemeError : JSError :=
  .plain "MongoParseError"
    "Invalid scheme, expected connection string to start with \"mongodb://\" or \"mongodb+srv://\""
    none

/-- The constructor of the drivers for examples: like the MongoDB driver, it throws a
`MongoParseError` on a connection string that starts with neither `mongodb://` nor
`mongodb+srv://`, and accepts every other one. -/
def sampleNewClient (uri : String) (_options : MongoClientOptions) : Except JSError Unit :=
  if "mongodb://".data.isPrefixOf uri.data ∨ "mongodb+srv://".data.isPrefixOf uri.data then
    .ok ()
  else .error schemeError

/-- A driver for examples: the constructor checks the scheme of the connection string and
`db` returns the handle numbered after the client. -/
def sampleDriver : Driver where
  newClient := sampleNewClient
  db := fun c _ => .ok ⟨c.id + 100⟩

/-- An environment for examples: only the two required variables are set. -/
def sampleEnv : Env :=
  setVar (setVar emptyEnv .MONGODB_URI (some "mongodb://localhost:27017")) .MONGODB_DB_NAME
    (some "app")

/-- The message of the error `getDb` throws while no database is cached. -/
def notInitializedMessage : String :=
  "Базу даних ще не ініціалізовано. Спочатку викличте connectToDatabase()."

/-- `getDb`: throws a plain `Error` while `cachedDb` is `null`, and returns `cachedDb`
otherwise. The function assigns nothing: the world it returns is the one it was given. -/
def getDb (w : World) : World × Except JSError Db :=
  match w.cache.cachedDb with
  | none => (w, .error (.plain "Error" notInitializedMessage none))
  | some db => (w, .ok db)

/-- What a call of `closeDatabaseConnection` has done when it first gives up control:
returned at once because `cachedClient` was `null`, or called `cachedClient.close()` on the
client and is awaiting it. -/
inductive CloseCall where
  | returned
  | awaiting (client : Client)
  deriving DecidableEq

/-- The part of `closeDatabaseConnection` that runs at the call: the test of `cachedClient`
and the call of `close()`. No module variable is assigned here. -/
def closeDatabaseConnection (w : World) : World × CloseCall :=
  match w.cache.cachedClient with
  | none => (w, .returned)
  | some client => (w, .awaiting client)

/-- The part of `closeDatabaseConnection` after `await`: when the awaited `close()` is
fulfilled the three module variables are set to `null` and the call is fulfilled; when it
is rejected the `await` throws, the three assignments are skipped and the call is rejected
with that error. -/
def closeSettled (result : Except JSError Unit) (w : World) :
    World × Except JSError Unit :=
  match result with
  | .ok _ => (⟨⟨none, none, none⟩, w.attempts⟩, .ok ())
  | .error e => (w, .error e)

/-- Calls of `connectToDatabase` made one after the other, one per environment snapshot,
with nothing happening in between: the final world and the promise of each call. -/
def connectAll (driver : Driver) (envs : List Env) (w : World) :
    World × List CallResult :=
  match envs with
  | [] => (w, [])
  | env :: rest =>
    let first := connectToDatabase driver env w
    let others := connectAll driver rest first.1
    (others.1, first.2 :: others.2)

/-- A driver for examples whose `db` throws on a database name that contains a dot, as the
`Db` constructor of the MongoDB driver does. -/
def dotDriver : Driver where
  newClient := sampleNewClient
  db := fun c name =>
    if '.' ∈ name.data then
      .error (.plain "MongoInvalidArgumentError"
        "Database names cannot contain the character '.'" none)
    else .ok ⟨c.id + 100⟩

/-- An environment for examples whose database name contains a dot. -/
def dottedEnv : Env :=
  setVar (setVar emptyEnv .MONGODB_URI (some "mongodb://localhost:27017")) .MONGODB_DB_NAME
    (some "shop.items")

/-- An environment for examples whose connection string lacks the scheme: both required
variables are present, and the constructor of the sample driver throws. -/
def schemelessEnv : Env :=
  setVar (setVar emptyEnv .MONGODB_URI (some "localhost:27017")) .MONGODB_DB_NAME (some "app")

/-- A server-selection failure caused by the TLS alert the module recognises. -/
def tlsAlertError : JSError :=
  .caused "MongoServerSelectionError" "server selection timed out" none
    (.plain "Error" "tlsv1 alert internal error" (some "ERR_SSL_TLSV1_ALERT_INTERNAL_ERROR"))

/-- What can happen to the module, one event at a time: a call of `connectToDatabase`, the
end of the `connect()` of attempt `k`, a call of `getDb`, a call of
`closeDatabaseConnection`, and the end of an awaited `close()`. -/
inductive Event where
  | connect (env : Env)
  | connectSettled (k : Nat) (result : Except JSError Client)
  | getDb
  | close
  | closeSettled (result : Except JSError Unit)

/-- The world after one event. -/
def step (driver : Driver) (w : World) (event : Event) : World :=
  match event with
  | .connect env => (connectToDatabase driver env w).1
  | .connectSettled k result => settle driver k result w
  | .getDb => (getDb w).1
  | .close => (closeDatabaseConnection w).1
  | .closeSettled result => (closeSettled result w).1

/-- The world after a sequence of events, in order. -/
def run (driver : Driver) (w : World) (events : List Event) : World :=
  events.foldl (step driver) w

/-- The cache holds a complete pair or nothing: both `cachedClient` and `cachedDb` are
`null`, or both are set and `cachedDb` is a handle `cachedClient.db(name)` returned. -/
def Paired (driver : Driver) (cache : Cache) : Prop :=
  (cache.cachedClient = none ∧ cache.cachedDb = none) ∨
    ∃ c d name, cache.cachedClient = some c ∧ cache.cachedDb = some d ∧
      driver.db c name = .ok d

/-- A world for examples: the attempt made at module load with the sample environment has
succeeded with client 7. -/
def readyWorld : World :=
  settle sampleDriver 0 (.ok ⟨7⟩) (connectToDatabase sampleDriver sampleEnv initialWorld).1

/-- A whole call of `closeDatabaseConnection` whose awaited `close()`, if one is called,
settles with `result` before anything else happens: the world after the call, the outcome
of the call, and the client on which `close()` was called (`none` when it was not). -/
def closeCompleted (result : Except JSError Unit) (w : World) :
    World × Except JSError Unit × Option Client :=
  match closeDatabaseConnection w with
  | (w1, .returned) => (w1, .ok (), none)
  | (w1, .awaiting client) =>
    ((closeSettled result w1).1, (closeSettled result w1).2, some client)

/-- An error for examples, with which an awaited `close()` is rejected. -/
def closeError : JSError := .plain "MongoNetworkError" "connection closed" none

/-! ## Lemmas on the built-ins -/

theorem lowerChar_of_isWhiteSpace (c : Char) (h : isWhiteSpace c = true) :
    lowerChar c = [c] := by
  simp only [isWhiteSpace, Bool.or_eq_true, Bool.and_eq_true, decide_eq_true_eq] at h
  unfold lowerChar
  rw [if_neg (by omega), if_neg (by omega), if_neg (by omega)]

theorem dropWhile_eq_self_of_forall {α : Type} (p : α → Bool) (l : List α)
    (h : ∀ c ∈ l, p c = false) : l.dropWhile p = l := by
  cases l with
  | nil => rfl
  | cons a t => simp [List.dropWhile, h a (List.mem_cons_self a t)]

theorem trim_eq_self (s : String) (h : ∀ c ∈ s.data, isWhiteSpace c = false) :
    trim s = s := by
  unfold trim
  rw [dropWhile_eq_self_of_forall _ _ h,
    dropWhile_eq_self_of_forall _ _ (fun c hc => h c (List.mem_reverse.mp hc)),
    List.reverse_reverse]

theorem no_whiteSpace_of_toLowerCase (s t : String) (h : toLowerCase s = t)
    (ht : ∀ c ∈ t.data, isWhiteSpace c = false) : ∀ c ∈ s.data, isWhiteSpace c = false := by
  intro c hc
  by_contra hws
  have hws : isWhiteSpace c = true := by simpa using hws
  have hmem : c ∈ t.data := by
    rw [← h]
    simp only [toLowerCase, List.mem_flatMap]
    exact ⟨c, hc, by simp [lowerChar_of_isWhiteSpace c hws]⟩
  rw [ht c hmem] at hws
  exact Bool.false_ne_true hws

theorem token_no_whiteSpace :
    ∀ t ∈ truthyValues ++ falsyValues, ∀ c ∈ t.data, isWhiteSpace c = false := by
  decide

theorem truthy_falsy_disjoint : ∀ t ∈ falsyValues, t ∉ truthyValues := by
  decide

theorem trim_eq_self_of_token (s : String)
    (h : toLowerCase s ∈ truthyValues ++ falsyValues) : trim s = s :=
  trim_eq_self s
    (no_whiteSpace_of_toLowerCase s _ rfl (token_no_whiteSpace _ h))

/-! ## Lemmas on the configuration builder -/

theorem build_eq_staged (env : Env) :
    buildMongoClientOptions env =
      (match env .MONGODB_SERVER_API_VERSION with
      | some version =>
        if version ≠ "" then
          { stagedOptions env with
            serverApi := some ⟨version, parseBoolean (env .MONGODB_SERVER_API_STRICT),
              parseBoolean (env .MONGODB_SERVER_API_DEPRECATION_ERRORS)⟩ }
        else stagedOptions env
      | none => stagedOptions env) := rfl

theorem assignIf_apply {α : Type} (g : MongoClientOptions → α) (c : Prop) [Decidable c]
    (f : MongoClientOptions → MongoClientOptions) (o : MongoClientOptions) :
    g (assignIf c f o) = if c then g (f o) else g o := by
  unfold assignIf; split <;> rfl

theorem ite_ne_none_self {α : Type} (x : Option α) [Decidable (x ≠ none)] :
    (if x ≠ none then x else none) = x := by
  cases x <;> simp

theorem staged_fields (env : Env) :
    stagedOptions env = { optionsByField env with serverApi := none } := by
  unfold stagedOptions optionsByField
  rw [MongoClientOptions.mk.injEq]
  refine ⟨?_, ?_, ?_, ?_, ?_, ?_, ?_, ?_, ?_, ?_, ?_, ?_, ?_, ?_, ?_, ?_⟩
  · simp only [assignIf_apply MongoClientOptions.serverSelectionTimeoutMS, ite_self]
  · simp only [assignIf_apply MongoClientOptions.appName, ite_self, emptyOptions]
  · simp only [assignIf_apply MongoClientOptions.directConnection, ite_self, emptyOptions,
      ite_ne_none_self]
  · simp only [assignIf_apply MongoClientOptions.tls, ite_self, emptyOptions, ite_ne_none_self]
  · simp only [assignIf_apply MongoClientOptions.tlsCAFile, ite_self, emptyOptions]
  · simp only [assignIf_apply MongoClientOptions.tlsAllowInvalidCertificates, ite_self,
      emptyOptions, ite_ne_none_self]
  · simp only [assignIf_apply MongoClientOptions.tlsAllowInvalidHostnames, ite_self,
      emptyOptions, ite_ne_none_self]
  · simp only [assignIf_apply MongoClientOptions.tlsInsecure, ite_self, emptyOptions]
  · simp only [assignIf_apply MongoClientOptions.tlsCertificateFile, ite_self, emptyOptions]
  · simp only [assignIf_apply MongoClientOptions.tlsCertificateKeyFile, ite_self, emptyOptions]
  · simp only [assignIf_apply MongoClientOptions.tlsCertificateKeyFilePassword, ite_self,
      emptyOptions]
  · simp only [assignIf_apply MongoClientOptions.maxPoolSize, ite_self, emptyOptions,
      ite_ne_none_self]
  · simp only [assignIf_apply MongoClientOptions.minPoolSize, ite_self, emptyOptions,
      ite_ne_none_self]
  · simp only [assignIf_apply MongoClientOptions.waitQueueTimeoutMS, ite_self, emptyOptions,
      ite_ne_none_self]
  · simp only [assignIf_apply MongoClientOptions.compressors, ite_self, emptyOptions]
  · simp only [assignIf_apply MongoClientOptions.serverApi, ite_self, emptyOptions]

theorem build_eq_optionsByField (env : Env) :
    buildMongoClientOptions env = optionsByField env := by
  rw [build_eq_staged, staged_fields]
  cases h : env .MONGODB_SERVER_API_VERSION with
  | none => simp [optionsByField, h]
  | some version =>
    by_cases hv : version = "" <;> simp [optionsByField, h, hv]

/-! ## Theorems on `parseBoolean` -/

/-- C1: every string whose lower-cased form is one of `1, true, yes, y, on` parses to
`true`, and every string whose lower-cased form is one of `0, false, no, n, off` parses to
`false`. -/
theorem parseBoolean_token (s : String) :
    (toLowerCase s ∈ truthyValues → parseBoolean (some s) = some true) ∧
    (toLowerCase s ∈ falsyValues → parseBoolean (some s) = some false) := by
  constructor
  · intro h
    have htrim := trim_eq_self_of_token s (List.mem_append_left _ h)
    simp [parseBoolean, htrim, h]
  · intro h
    have htrim := trim_eq_self_of_token s (List.mem_append_right _ h)
    have hnot := truthy_falsy_disjoint _ h
    simp [parseBoolean, htrim, h, hnot]

/-- Witness of C1 at the spellings `TRUE` and `oFF`. -/
theorem parseBoolean_token_witness :
    parseBoolean (some "TRUE") = some true ∧ parseBoolean (some "oFF") = some false :=
  ⟨(parseBoolean_token "TRUE").1 (by decide), (parseBoolean_token "oFF").2 (by decide)⟩

/-- C2 as stated fails: the lower-cased form of `" true "` (with blanks around the token)
is not one of the ten tokens, yet `parseBoolean` returns `true` for it, because the value
is trimmed first. -/
theorem parseBoolean_padded_counterexample :
    toLowerCase " true " ∉ truthyValues ++ falsyValues ∧
      parseBoolean (some " true ") = some true := by
  decide

/-- C2, amended: `parseBoolean` is `undefined` for an unset value and for every string
whose trimmed, lower-cased form is not one of the ten tokens (and only for those); the
options `directConnection`, `tlsAllowInvalidCertificates`, `tlsAllowInvalidHostnames` and
`tlsInsecure` are then omitted. -/
theorem parseBoolean_undefined (value : Option String) :
    (parseBoolean value = none ↔
      value = none ∨
        ∃ s, value = some s ∧ toLowerCase (trim s) ∉ truthyValues ++ falsyValues) ∧
    (∀ env : Env,
      (parseBoolean (env .MONGODB_DIRECT_CONNECTION) = none →
        (buildMongoClientOptions env).directConnection = none) ∧
      (parseBoolean (env .MONGODB_TLS_ALLOW_INVALID_CERTS) = none →
        (buildMongoClientOptions env).tlsAllowInvalidCertificates = none) ∧
      (parseBoolean (env .MONGODB_TLS_ALLOW_INVALID_HOSTNAMES) = none →
        (buildMongoClientOptions env).tlsAllowInvalidHostnames = none) ∧
      (parseBoolean (env .MONGODB_TLS_INSECURE) = none →
        (buildMongoClientOptions env).tlsInsecure = none)) := by
  refine ⟨?_, fun env => ?_⟩
  · cases value with
    | none => simp [parseBoolean]
    | some s =>
      have hc : ∀ l : List String, l.contains (toLowerCase (trim s)) = true ↔
          toLowerCase (trim s) ∈ l := fun l => by simp
      simp only [parseBoolean, hc, List.mem_append, not_or, false_or, reduceCtorEq,
        Option.some.injEq, exists_eq_left']
      split_ifs with h1 h2 <;> simp [*]
  · rw [build_eq_optionsByField]
    simp only [optionsByField]
    refine ⟨id, id, id, fun h => ?_⟩
    simp [h]

/-- Witness of C2 (amended) at the strings `maybe` and the empty string, and at the
environment that sets only `MONGODB_TLS_INSECURE=maybe`. -/
theorem parseBoolean_undefined_witness :
    parseBoolean (some "maybe") = none ∧ parseBoolean (some "") = none ∧
      (buildMongoClientOptions (setVar emptyEnv .MONGODB_TLS_INSECURE (some "maybe"))).tlsInsecure
        = none :=
  ⟨(parseBoolean_undefined (some "maybe")).1.mpr (Or.inr ⟨"maybe", rfl, by decide⟩),
    (parseBoolean_undefined (some "")).1.mpr (Or.inr ⟨"", rfl, by decide⟩),
    ((parseBoolean_undefined none).2
      (setVar emptyEnv .MONGODB_TLS_INSECURE (some "maybe"))).2.2.2 (by decide)⟩

/-! ## Theorems on `parseInteger` -/

theorem foldl_digits (ds : List Char) (init : Nat) :
    ds.foldl (fun acc c => 10 * acc + (c.toNat - 0x30)) init =
      init * 10 ^ ds.length + decimalValue ds := by
  induction ds generalizing init with
  | nil => simp [decimalValue]
  | cons c t ih =>
    rw [List.foldl_cons, ih]
    simp only [decimalValue, List.map_cons, List.reverse_cons, Nat.ofDigits_append,
      Nat.ofDigits_singleton, List.length_reverse, List.length_map, List.length_cons]
    ring

theorem toDouble_exact (negative : Bool) (m : Nat) (h : m ≤ 2 ^ 53) :
    toDouble negative m = .finite negative m := by
  by_cases hlt : m < 2 ^ 53
  · unfold toDouble
    rw [if_pos hlt]
  · have hm : m = 2 ^ 53 := by omega
    subst hm
    cases negative <;> decide

theorem toDouble_ne_nan (negative : Bool) (m : Nat) :
    Number.isNaN (toDouble negative m) = false := by
  unfold toDouble
  simp only []
  split_ifs <;> rfl

theorem digit_not_special (c : Char) (h : isDigit c = true) :
    isWhiteSpace c = false ∧ c ≠ '-' ∧ c ≠ '+' := by
  simp only [isDigit, Bool.and_eq_true, decide_eq_true_eq] at h
  refine ⟨?_, ?_, ?_⟩
  · simp only [isWhiteSpace, Bool.or_eq_false_iff, Bool.and_eq_false_iff, decide_eq_false_iff_not]
    omega
  · rintro rfl
    simp at h
  · rintro rfl
    simp at h

theorem parseInt10_digits (ds : List Char) (hne : ds ≠ [])
    (hd : ∀ c ∈ ds, isDigit c = true) :
    Number.parseInt10 ⟨ds⟩ = toDouble false (decimalValue ds) ∧
    Number.parseInt10 ⟨'+' :: ds⟩ = toDouble false (decimalValue ds) ∧
    Number.parseInt10 ⟨'-' :: ds⟩ = toDouble true (decimalValue ds) := by
  have htake : ds.takeWhile isDigit = ds := List.takeWhile_eq_self_iff.mpr hd
  have hfold := foldl_digits ds 0
  rw [Nat.zero_mul, Nat.zero_add] at hfold
  have hplus : isWhiteSpace '+' = false := by decide
  have hminus : isWhiteSpace '-' = false := by decide
  cases ds with
  | nil => exact absurd rfl hne
  | cons d t =>
    obtain ⟨hws, hm, hp⟩ := digit_not_special d (hd d (List.mem_cons_self d t))
    refine ⟨?_, ?_, ?_⟩
    · simp only [Number.parseInt10, List.dropWhile_cons, hws, Bool.false_eq_true, if_false,
        hm, hp, or_self, htake, List.head?_cons, Option.some.injEq, decide_False, hfold]
      simp
    · simp only [Number.parseInt10, List.dropWhile_cons, hplus, Bool.false_eq_true, if_false,
        or_true, if_true, htake, List.head?_cons, Option.some.injEq, hfold]
      simp
    · simp only [Number.parseInt10, List.dropWhile_cons, hminus, Bool.false_eq_true, if_false,
        true_or, if_true, htake, List.head?_cons, Option.some.injEq, hfold]
      simp

theorem denotedInteger_cases (s : String) (z : Int) (h : denotedInteger s = some z) :
    ∃ ds : List Char, ds ≠ [] ∧ (∀ c ∈ ds, isDigit c = true) ∧
      ((s = ⟨ds⟩ ∧ z = decimalValue ds) ∨ (s = ⟨'+' :: ds⟩ ∧ z = decimalValue ds) ∨
        (s = ⟨'-' :: ds⟩ ∧ z = -(decimalValue ds : Int))) := by
  obtain ⟨l⟩ := s
  unfold denotedInteger at h
  cases l with
  | nil => simp at h
  | cons c rest =>
    simp only [] at h
    split_ifs at h with h1 h2 h3 h4 h5
    · subst h1
      exact ⟨rest, h2.1, by simpa using h2.2, Or.inr (Or.inr ⟨rfl, by simpa using h.symm⟩)⟩
    · subst h3
      exact ⟨rest, h4.1, by simpa using h4.2, Or.inr (Or.inl ⟨rfl, by simpa using h.symm⟩)⟩
    · exact ⟨c :: rest, by simp, by simpa using h5, Or.inl ⟨rfl, by simpa using h.symm⟩⟩

theorem parseInt10_isNaN (s : String) :
    Number.isNaN (Number.parseInt10 s) = !startsWithInteger s := by
  unfold Number.parseInt10 startsWithInteger
  generalize s.data.dropWhile isWhiteSpace = l
  cases l with
  | nil => simp [Number.isNaN]
  | cons c rest =>
    by_cases hc : c = '-' ∨ c = '+'
    · cases rest with
      | nil => simp [hc, Number.isNaN]
      | cons d t =>
        by_cases hd : isDigit d = true
        · simp [hc, hd, List.takeWhile_cons, toDouble_ne_nan]
        · simp [hc, hd, List.takeWhile_cons, Number.isNaN]
    · by_cases hd : isDigit c = true
      · simp [hc, hd, List.takeWhile_cons, toDouble_ne_nan]
      · simp [hc, hd, List.takeWhile_cons, Number.isNaN]

/-- C3 as stated fails: `9007199254740993` is an integer literal denoting `2^53 + 1`, and
`parseInteger` returns `9007199254740992` for it, the nearest double; likewise
`9007199254740995` denotes `2^53 + 3` and gives `9007199254740996`. -/
theorem parseInteger_large_counterexample :
    denotedInteger "9007199254740993" = some 9007199254740993 ∧
      (parseInteger (some "9007199254740993")).bind JSNumber.toInt? =
        some 9007199254740992 ∧
      denotedInteger "9007199254740995" = some 9007199254740995 ∧
      (parseInteger (some "9007199254740995")).bind JSNumber.toInt? =
        some 9007199254740996 := by
  decide

/-- C3, amended: for every string that is an optional sign followed by one or more decimal
digits, `parseInteger` returns a Number, never `undefined`; and when the integer the string
denotes has magnitude at most `2^53`, `parseInteger` returns exactly that integer, read in
base 10. -/
theorem parseInteger_integer_literal (s : String) (z : Int)
    (h : denotedInteger s = some z) :
    (∃ x, parseInteger (some s) = some x) ∧
      (z.natAbs ≤ 2 ^ 53 → (parseInteger (some s)).bind JSNumber.toInt? = some z) := by
  obtain ⟨ds, hne, hd, hcase⟩ := denotedInteger_cases s z h
  obtain ⟨h1, h2, h3⟩ := parseInt10_digits ds hne hd
  have hnan := toDouble_ne_nan
  rcases hcase with ⟨rfl, rfl⟩ | ⟨rfl, rfl⟩ | ⟨rfl, rfl⟩
  · refine ⟨⟨toDouble false (decimalValue ds), by simp [parseInteger, h1, hnan]⟩,
      fun hz => ?_⟩
    have hm : decimalValue ds ≤ 2 ^ 53 := by simpa using hz
    simp [parseInteger, h1, toDouble_exact _ _ hm, Number.isNaN, JSNumber.toInt?]
  · refine ⟨⟨toDouble false (decimalValue ds), by simp [parseInteger, h2, hnan]⟩,
      fun hz => ?_⟩
    have hm : decimalValue ds ≤ 2 ^ 53 := by simpa using hz
    simp [parseInteger, h2, toDouble_exact _ _ hm, Number.isNaN, JSNumber.toInt?]
  · refine ⟨⟨toDouble true (decimalValue ds), by simp [parseInteger, h3, hnan]⟩,
      fun hz => ?_⟩
    have hm : decimalValue ds ≤ 2 ^ 53 := by simpa using hz
    simp [parseInteger, h3, toDouble_exact _ _ hm, Number.isNaN, JSNumber.toInt?]

/-- Witness of C3 (amended) at `010`, which is ten and not eight, and at `-7`. -/
theorem parseInteger_integer_literal_witness :
    (parseInteger (some "010")).bind JSNumber.toInt? = some 10 ∧
      (parseInteger (some "-7")).bind JSNumber.toInt? = some (-7) :=
  ⟨(parseInteger_integer_literal "010" 10 (by decide)).2 (by decide),
    (parseInteger_integer_literal "-7" (-7) (by decide)).2 (by decide)⟩

/-- C4 as stated fails: `12abc`, `3.7` and `1e3` are not base-10 integers, and
`parseInteger` returns the value of their leading digits, 12, 3 and 1. -/
theorem parseInteger_prefix_counterexample :
    denotedInteger "12abc" = none ∧ parseInteger (some "12abc") = some (.finite false 12) ∧
    denotedInteger "3.7" = none ∧ parseInteger (some "3.7") = some (.finite false 3) ∧
    denotedInteger "1e3" = none ∧ parseInteger (some "1e3") = some (.finite false 1) := by
  decide

/-- C4, amended: `parseInteger` is `undefined` exactly for an unset value and for the
strings that, after leading white space and an optional sign, do not go on with a decimal
digit; `maxPoolSize`, `minPoolSize` and `waitQueueTimeoutMS` are the results of
`parseInteger` on their variables, hence omitted in those cases. -/
theorem parseInteger_undefined (value : Option String) :
    (parseInteger value = none ↔
      value = none ∨ ∃ s, value = some s ∧ startsWithInteger s = false) ∧
    (∀ env : Env,
      (buildMongoClientOptions env).maxPoolSize = parseInteger (env .MONGODB_MAX_POOL_SIZE) ∧
      (buildMongoClientOptions env).minPoolSize = parseInteger (env .MONGODB_MIN_POOL_SIZE) ∧
      (buildMongoClientOptions env).waitQueueTimeoutMS =
        parseInteger (env .MONGODB_WAIT_QUEUE_TIMEOUT_MS)) := by
  refine ⟨?_, fun env => ?_⟩
  · cases value with
    | none => simp [parseInteger]
    | some s =>
      have h := parseInt10_isNaN s
      cases hs : startsWithInteger s <;> simp [parseInteger, h, hs]
  · rw [build_eq_optionsByField]
    exact ⟨rfl, rfl, rfl⟩

/-- Witness of C4 (amended) at the empty string, `abc` and a lone sign. -/
theorem parseInteger_undefined_witness :
    parseInteger (some "") = none ∧ parseInteger (some "abc") = none ∧
      parseInteger (some "  -") = none :=
  ⟨(parseInteger_undefined (some "")).1.mpr (Or.inr ⟨"", rfl, by decide⟩),
    (parseInteger_undefined (some "abc")).1.mpr (Or.inr ⟨"abc", rfl, by decide⟩),
    (parseInteger_undefined (some "  -")).1.mpr (Or.inr ⟨"  -", rfl, by decide⟩)⟩

/-! ## Theorems on `buildMongoClientOptions` -/

theorem parseBoolean_none : parseBoolean none = none := rfl

theorem parseInteger_none : parseInteger none = none := rfl

theorem truthy_none : truthy none = false := rfl

theorem setVar_same (env : Env) (x : Var) (v : Option String) : setVar env x v x = v := by
  simp [setVar]

theorem setVar_other (env : Env) (x y : Var) (v : Option String) (h : y ≠ x) :
    setVar env x v y = env y := by
  simp [setVar, h]

/-- C5: the built options always contain `serverSelectionTimeoutMS`; it is 5000 when the
variable is unset or `parseInteger` gives `undefined` for it, and otherwise the value
`parseInteger` returned, a parsed `0` included. -/
theorem serverSelectionTimeoutMS_default (env : Env) :
    (env .MONGODB_SERVER_SELECTION_TIMEOUT_MS = none →
      (buildMongoClientOptions env).serverSelectionTimeoutMS = some (.finite false 5000)) ∧
    (parseInteger (env .MONGODB_SERVER_SELECTION_TIMEOUT_MS) = none →
      (buildMongoClientOptions env).serverSelectionTimeoutMS = some (.finite false 5000)) ∧
    (∀ n, parseInteger (env .MONGODB_SERVER_SELECTION_TIMEOUT_MS) = some n →
      (buildMongoClientOptions env).serverSelectionTimeoutMS = some n) ∧
    (env .MONGODB_SERVER_SELECTION_TIMEOUT_MS = some "0" →
      (buildMongoClientOptions env).serverSelectionTimeoutMS = some (.finite false 0)) := by
  rw [build_eq_optionsByField]
  simp only [optionsByField]
  refine ⟨fun h => ?_, fun h => ?_, fun n h => ?_, fun h => ?_⟩
  · rw [h]; rfl
  · rw [h]; rfl
  · rw [h]; rfl
  · rw [h]; decide

/-- Witness of C5: unset, unparseable (`soon`), `2500` and `0`. -/
theorem serverSelectionTimeoutMS_default_witness :
    (buildMongoClientOptions emptyEnv).serverSelectionTimeoutMS = some (.finite false 5000) ∧
    (buildMongoClientOptions
      (setVar emptyEnv .MONGODB_SERVER_SELECTION_TIMEOUT_MS (some "soon"))).serverSelectionTimeoutMS
        = some (.finite false 5000) ∧
    (buildMongoClientOptions
      (setVar emptyEnv .MONGODB_SERVER_SELECTION_TIMEOUT_MS (some "2500"))).serverSelectionTimeoutMS
        = some (.finite false 2500) ∧
    (buildMongoClientOptions
      (setVar emptyEnv .MONGODB_SERVER_SELECTION_TIMEOUT_MS (some "0"))).serverSelectionTimeoutMS
        = some (.finite false 0) :=
  ⟨(serverSelectionTimeoutMS_default emptyEnv).1 rfl,
    (serverSelectionTimeoutMS_default _).2.1 (by decide),
    (serverSelectionTimeoutMS_default _).2.2.1 _ (by decide),
    (serverSelectionTimeoutMS_default _).2.2.2 (by decide)⟩

/-- C6: each optional field other than the server-selection timeout is absent when its own
variable is unset, and the empty environment gives exactly
`{ serverSelectionTimeoutMS: 5000 }`, with no `tls` field. -/
theorem optional_fields_omitted :
    (∀ env : Env,
      (env .MONGODB_APP_NAME = none → (buildMongoClientOptions env).appName = none) ∧
      (env .MONGODB_DIRECT_CONNECTION = none →
        (buildMongoClientOptions env).directConnection = none) ∧
      (env .MONGODB_TLS_CA_FILE = none → (buildMongoClientOptions env).tlsCAFile = none) ∧
      (env .MONGODB_TLS_ALLOW_INVALID_CERTS = none →
        (buildMongoClientOptions env).tlsAllowInvalidCertificates = none) ∧
      (env .MONGODB_TLS_ALLOW_INVALID_HOSTNAMES = none →
        (buildMongoClientOptions env).tlsAllowInvalidHostnames = none) ∧
      (env .MONGODB_TLS_INSECURE = none → (buildMongoClientOptions env).tlsInsecure = none) ∧
      (env .MONGODB_TLS_CERTIFICATE_FILE = none →
        (buildMongoClientOptions env).tlsCertificateFile = none) ∧
      (env .MONGODB_TLS_CERTIFICATE_KEY_FILE = none →
        (buildMongoClientOptions env).tlsCertificateKeyFile = none) ∧
      (env .MONGODB_TLS_CERTIFICATE_KEY_FILE_PASSWORD = none →
        (buildMongoClientOptions env).tlsCertificateKeyFilePassword = none) ∧
      (env .MONGODB_MAX_POOL_SIZE = none → (buildMongoClientOptions env).maxPoolSize = none) ∧
      (env .MONGODB_MIN_POOL_SIZE = none → (buildMongoClientOptions env).minPoolSize = none) ∧
      (env .MONGODB_WAIT_QUEUE_TIMEOUT_MS = none →
        (buildMongoClientOptions env).waitQueueTimeoutMS = none) ∧
      (env .MONGODB_COMPRESSORS = none → (buildMongoClientOptions env).compressors = none) ∧
      (env .MONGODB_SERVER_API_VERSION = none →
        (buildMongoClientOptions env).serverApi = none)) ∧
    buildMongoClientOptions emptyEnv =
      { emptyOptions with serverSelectionTimeoutMS := some (.finite false 5000) } ∧
    (buildMongoClientOptions emptyEnv).tls = none := by
  refine ⟨fun env => ?_, by decide, by decide⟩
  rw [build_eq_optionsByField]
  simp only [optionsByField]
  refine ⟨?_, ?_, ?_, ?_, ?_, ?_, ?_, ?_, ?_, ?_, ?_, ?_, ?_, ?_⟩ <;> intro h <;> rw [h] <;>
    simp [parseBoolean_none, parseInteger_none, truthy_none]

/-- Witness of C6 at an environment that sets only `MONGODB_TLS=true`: `appName`, whose
variable is unset, is absent. -/
theorem optional_fields_omitted_witness :
    (buildMongoClientOptions (setVar emptyEnv .MONGODB_TLS (some "true"))).appName = none :=
  (optional_fields_omitted.1 (setVar emptyEnv .MONGODB_TLS (some "true"))).1 (by decide)

/-- C7: when a TLS file or password variable is a non-empty string, or the allow-invalid
certificates or hostnames variable parses to a boolean, or `MONGODB_TLS_INSECURE` parses to
`true`, the built options have `tls = true`, whatever `MONGODB_TLS` says. -/
theorem tls_forced (env : Env)
    (h : truthy (env .MONGODB_TLS_CA_FILE) = true ∨
      truthy (env .MONGODB_TLS_CERTIFICATE_FILE) = true ∨
      truthy (env .MONGODB_TLS_CERTIFICATE_KEY_FILE) = true ∨
      truthy (env .MONGODB_TLS_CERTIFICATE_KEY_FILE_PASSWORD) = true ∨
      parseBoolean (env .MONGODB_TLS_ALLOW_INVALID_CERTS) ≠ none ∨
      parseBoolean (env .MONGODB_TLS_ALLOW_INVALID_HOSTNAMES) ≠ none ∨
      parseBoolean (env .MONGODB_TLS_INSECURE) = some true) :
    (buildMongoClientOptions env).tls = some true := by
  rw [build_eq_optionsByField]
  simp only [optionsByField]
  split_ifs <;> first | rfl | (exfalso; tauto)

/-- Witness of C7: `MONGODB_TLS=false` with `MONGODB_TLS_CA_FILE=/path` gives `tls = true`. -/
theorem tls_forced_witness :
    (buildMongoClientOptions
      (setVar (setVar emptyEnv .MONGODB_TLS (some "false")) .MONGODB_TLS_CA_FILE
        (some "/path"))).tls = some true :=
  tls_forced _ (Or.inl (by decide))

/-- C8: when `MONGODB_TLS_INSECURE` does not parse to `true`, the built options are those
of the same environment without that variable, and have no `tlsInsecure` field; with only
`MONGODB_TLS_INSECURE=false` set there is no `tls` field, and with `MONGODB_TLS=false` and
`MONGODB_TLS_INSECURE=false` the result has `tls = false`. -/
theorem tlsInsecure_only_true :
    (∀ env : Env, parseBoolean (env .MONGODB_TLS_INSECURE) ≠ some true →
      buildMongoClientOptions env =
          buildMongoClientOptions (setVar env .MONGODB_TLS_INSECURE none) ∧
        (buildMongoClientOptions env).tlsInsecure = none) ∧
    (buildMongoClientOptions
      (setVar emptyEnv .MONGODB_TLS_INSECURE (some "false"))).tls = none ∧
    (buildMongoClientOptions
      (setVar (setVar emptyEnv .MONGODB_TLS (some "false")) .MONGODB_TLS_INSECURE
        (some "false"))).tls = some false := by
  refine ⟨fun env h => ?_, by decide, by decide⟩
  rw [build_eq_optionsByField, build_eq_optionsByField]
  simp [optionsByField, setVar, h, parseBoolean_none]

/-- Witness of C8 at `MONGODB_TLS_INSECURE=false` next to `MONGODB_APP_NAME=shop`. -/
theorem tlsInsecure_only_true_witness :
    buildMongoClientOptions
        (setVar (setVar emptyEnv .MONGODB_APP_NAME (some "shop")) .MONGODB_TLS_INSECURE
          (some "false")) =
      buildMongoClientOptions
        (setVar (setVar (setVar emptyEnv .MONGODB_APP_NAME (some "shop")) .MONGODB_TLS_INSECURE
          (some "false")) .MONGODB_TLS_INSECURE none) :=
  (tlsInsecure_only_true.1 _ (by decide)).1

/-- C9: the built options contain `serverApi` exactly when `MONGODB_SERVER_API_VERSION` is
a non-empty string; its `version` is that string, `strict` and `deprecationErrors` are what
`parseBoolean` gives for their variables (absent when `undefined`); without a version the
two variables do not change the output. -/
theorem serverApi_descriptor (env : Env) :
    ((buildMongoClientOptions env).serverApi ≠ none ↔
      truthy (env .MONGODB_SERVER_API_VERSION) = true) ∧
    (∀ api, (buildMongoClientOptions env).serverApi = some api →
      env .MONGODB_SERVER_API_VERSION = some api.version ∧
      api.strict = parseBoolean (env .MONGODB_SERVER_API_STRICT) ∧
      api.deprecationErrors = parseBoolean (env .MONGODB_SERVER_API_DEPRECATION_ERRORS)) ∧
    (truthy (env .MONGODB_SERVER_API_VERSION) = false → ∀ a b,
      buildMongoClientOptions
          (setVar (setVar env .MONGODB_SERVER_API_STRICT a)
            .MONGODB_SERVER_API_DEPRECATION_ERRORS b) =
        buildMongoClientOptions env) := by
  refine ⟨?_, ?_, ?_⟩
  · rw [build_eq_optionsByField]
    cases h : env .MONGODB_SERVER_API_VERSION with
    | none => simp [optionsByField, h, truthy]
    | some v => by_cases hv : v = "" <;> simp [optionsByField, h, truthy, hv]
  · intro api
    rw [build_eq_optionsByField]
    cases h : env .MONGODB_SERVER_API_VERSION with
    | none => simp [optionsByField, h]
    | some v =>
      by_cases hv : v = ""
      · simp [optionsByField, h, hv]
      · simp only [optionsByField, h, ne_eq, hv, not_false_eq_true, if_true,
          Option.some.injEq]
        rintro rfl
        exact ⟨rfl, rfl, rfl⟩
  · intro hv a b
    rw [build_eq_optionsByField, build_eq_optionsByField]
    cases h : env .MONGODB_SERVER_API_VERSION with
    | none => simp [optionsByField, setVar, h]
    | some v =>
      have hv2 : v = "" := by simpa [truthy, h] using hv
      simp [optionsByField, setVar, h, hv2]

/-- Witness of C9: without a version, `MONGODB_SERVER_API_STRICT=true` changes nothing. -/
theorem serverApi_descriptor_witness :
    buildMongoClientOptions
        (setVar (setVar emptyEnv .MONGODB_SERVER_API_STRICT (some "true"))
          .MONGODB_SERVER_API_DEPRECATION_ERRORS none) =
      buildMongoClientOptions emptyEnv :=
  (serverApi_descriptor emptyEnv).2.2 (by decide) (some "true") none

/-! ## Theorems on the connection cache -/

theorem connect_new_attempt (driver : Driver) (env : Env) (w : World) (uri name : String)
    (hEmpty : w.cache = ⟨none, none, none⟩)
    (hUri : env .MONGODB_URI = some uri) (hUriNe : uri ≠ "")
    (hName : env .MONGODB_DB_NAME = some name) (hNameNe : name ≠ "")
    (hNew : driver.newClient uri (buildMongoClientOptions env) = .ok ()) :
    connectToDatabase driver env w =
      (⟨⟨none, none, some w.attempts.length⟩,
          w.attempts ++ [⟨uri, buildMongoClientOptions env, name, none⟩]⟩,
        .following w.attempts.length) := by
  obtain ⟨cache, attempts⟩ := w
  simp only [] at hEmpty
  subst hEmpty
  simp [connectToDatabase, hUri, hName, truthy, hUriNe, hNameNe, hNew]

theorem connect_constructor_throws (driver : Driver) (env : Env) (w : World)
    (uri name : String) (e : JSError) (hDb : w.cache.cachedDb = none)
    (hPromise : w.cache.clientPromise = none)
    (hUri : env .MONGODB_URI = some uri) (hUriNe : uri ≠ "")
    (hName : env .MONGODB_DB_NAME = some name) (hNameNe : name ≠ "")
    (hNew : driver.newClient uri (buildMongoClientOptions env) = .error e) :
    connectToDatabase driver env w = (w, .rejected e) := by
  simp [connectToDatabase, hDb, hPromise, hUri, hName, truthy, hUriNe, hNameNe, hNew]

theorem settle_last_pending (driver : Driver) (cache : Cache) (attempts : List Attempt)
    (a : Attempt) (h : a.outcome = none) (c : Client) (d : Db)
    (hdb : driver.db c a.dbName = .ok d) :
    settle driver attempts.length (.ok c) ⟨cache, attempts ++ [a]⟩ =
      ⟨{ cache with cachedClient := some c, cachedDb := some d },
        attempts ++ [{ a with outcome := some (.fulfilled ⟨some c, some d⟩) }]⟩ := by
  simp [settle, h, onConnected, hdb]

/-- C10 as stated fails: with `MONGODB_URI=localhost:27017` and `MONGODB_DB_NAME=app` both
variables are present, the constructor throws on the connection string without scheme, and
the call made at module load is rejected with that error: no attempt is recorded and
nothing is memoized. -/
theorem connect_constructor_counterexample :
    schemelessEnv .MONGODB_URI = some "localhost:27017" ∧
      schemelessEnv .MONGODB_DB_NAME = some "app" ∧
      connectToDatabase sampleDriver schemelessEnv initialWorld =
        (initialWorld, .rejected schemeError) := by
  decide

/-- C10, amended: from the empty cache with `MONGODB_URI` and `MONGODB_DB_NAME` present,
when the constructor accepts the URI and the options of `buildMongoClientOptions`,
`connectToDatabase` records exactly one new attempt, made with them, memoizes its promise
and returns it, and when that attempt succeeds with client `c` and `c.db(MONGODB_DB_NAME)`
is `d`, the cache holds `c` and `d`, no further attempt is made and the call resolves to
the pair of `c` and `d`; when the constructor throws, the call is rejected with its error
and the world is unchanged. -/
theorem connect_from_empty (driver : Driver) (env : Env) (w : World) (uri name : String)
    (hEmpty : w.cache = ⟨none, none, none⟩)
    (hUri : env .MONGODB_URI = some uri) (hUriNe : uri ≠ "")
    (hName : env .MONGODB_DB_NAME = some name) (hNameNe : name ≠ "") :
    (driver.newClient uri (buildMongoClientOptions env) = .ok () →
      connectToDatabase driver env w =
        (⟨⟨none, none, some w.attempts.length⟩,
            w.attempts ++ [⟨uri, buildMongoClientOptions env, name, none⟩]⟩,
          .following w.attempts.length) ∧
      ∀ c d, driver.db c name = .ok d →
        settle driver w.attempts.length (.ok c) (connectToDatabase driver env w).1 =
            ⟨⟨some c, some d, some w.attempts.length⟩,
              w.attempts ++
                [⟨uri, buildMongoClientOptions env, name,
                  some (.fulfilled ⟨some c, some d⟩)⟩]⟩ ∧
          (connectToDatabase driver env w).2.settled
              (settle driver w.attempts.length (.ok c) (connectToDatabase driver env w).1) =
            some (.fulfilled ⟨some c, some d⟩)) ∧
    (∀ e, driver.newClient uri (buildMongoClientOptions env) = .error e →
      connectToDatabase driver env w = (w, .rejected e)) := by
  refine ⟨fun hNew => ?_, fun e hNew => ?_⟩
  · have hconn :=
      connect_new_attempt driver env w uri name hEmpty hUri hUriNe hName hNameNe hNew
    refine ⟨hconn, fun c d hdb => ?_⟩
    rw [hconn]
    have hs := settle_last_pending driver ⟨none, none, some w.attempts.length⟩ w.attempts
      ⟨uri, buildMongoClientOptions env, name, none⟩ rfl c d hdb
    simp only [] at hs ⊢
    rw [hs]
    exact ⟨rfl, by simp [CallResult.settled]⟩
  · exact connect_constructor_throws driver env w uri name e (by rw [hEmpty])
      (by rw [hEmpty]) hUri hUriNe hName hNameNe hNew

/-- Witness of C10 (amended): the first call at module load, with the sample environment
and driver, whose attempt succeeds with client 7. -/
theorem connect_from_empty_witness :
    connectToDatabase sampleDriver sampleEnv initialWorld =
      (⟨⟨none, none, some 0⟩,
          [⟨"mongodb://localhost:27017", buildMongoClientOptions sampleEnv, "app", none⟩]⟩,
        .following 0) ∧
    (settle sampleDriver 0 (.ok ⟨7⟩)
        (connectToDatabase sampleDriver sampleEnv initialWorld).1).cache =
      ⟨some ⟨7⟩, some ⟨107⟩, some 0⟩ :=
  ⟨((connect_from_empty sampleDriver sampleEnv initialWorld "mongodb://localhost:27017" "app"
      rfl (by decide) (by decide) (by decide) (by decide)).1 rfl).1,
    congrArg World.cache
      ((((connect_from_empty sampleDriver sampleEnv initialWorld "mongodb://localhost:27017"
        "app" rfl (by decide) (by decide) (by decide) (by decide)).1 rfl).2 ⟨7⟩ ⟨107⟩ rfl).1)⟩

theorem connect_cached (driver : Driver) (env : Env) (w : World) (d : Db)
    (h : w.cache.cachedDb = some d) :
    connectToDatabase driver env w = (w, .fulfilled ⟨w.cache.cachedClient, some d⟩) := by
  simp [connectToDatabase, h]

theorem connect_missing_uri (driver : Driver) (env : Env) (w : World)
    (hDb : w.cache.cachedDb = none) (hUri : truthy (env .MONGODB_URI) = false) :
    connectToDatabase driver env w =
      (w, .rejected (MongoConfigurationError missingUriMessage none)) := by
  simp [connectToDatabase, hDb, hUri]

theorem connect_missing_dbName (driver : Driver) (env : Env) (w : World)
    (hDb : w.cache.cachedDb = none) (hUri : truthy (env .MONGODB_URI) = true)
    (hName : truthy (env .MONGODB_DB_NAME) = false) :
    connectToDatabase driver env w =
      (w, .rejected (MongoConfigurationError missingDbNameMessage none)) := by
  simp [connectToDatabase, hDb, hUri, hName]

theorem connect_memoized (driver : Driver) (env : Env) (w : World) (k : Nat)
    (hDb : w.cache.cachedDb = none) (hPromise : w.cache.clientPromise = some k)
    (hUri : truthy (env .MONGODB_URI) = true)
    (hName : truthy (env .MONGODB_DB_NAME) = true) :
    connectToDatabase driver env w = (w, .following k) := by
  simp [connectToDatabase, hDb, hUri, hName, hPromise]

theorem connect_world_unchanged (driver : Driver) (env : Env) (w : World) (k : Nat)
    (hPromise : w.cache.clientPromise = some k) :
    (connectToDatabase driver env w).1 = w := by
  unfold connectToDatabase
  split_ifs <;> simp [hPromise]

theorem truthy_some (v : String) (h : v ≠ "") : truthy (some v) = true := by
  simp [truthy, h]

theorem truthy_eq_some (value : Option String) (h : truthy value = true) :
    ∃ v, value = some v ∧ v ≠ "" := by
  cases value with
  | none => simp [truthy] at h
  | some v => exact ⟨v, rfl, by simpa [truthy] using h⟩

/-- C11: from the empty cache, `connectToDatabase` is rejected with a
`MongoConfigurationError` whose message names `MONGODB_URI` when that variable is unset or
empty (whatever `MONGODB_DB_NAME` is), and one whose message names `MONGODB_DB_NAME` when
the URI is present and the database name is unset or empty; the world is returned as it
was: no attempt is recorded and the three module variables are unchanged. -/
theorem connect_missing_configuration (driver : Driver) (env : Env) (w : World)
    (hEmpty : w.cache = ⟨none, none, none⟩) :
    (truthy (env .MONGODB_URI) = false →
      connectToDatabase driver env w =
        (w, .rejected (MongoConfigurationError missingUriMessage none))) ∧
    (truthy (env .MONGODB_URI) = true → truthy (env .MONGODB_DB_NAME) = false →
      connectToDatabase driver env w =
        (w, .rejected (MongoConfigurationError missingDbNameMessage none))) ∧
    (∀ message, (MongoConfigurationError message none).name = "MongoConfigurationError" ∧
      (MongoConfigurationError message none).message = message) ∧
    "MONGODB_URI".data <:+: missingUriMessage.data ∧
    ¬ "MONGODB_DB_NAME".data <:+: missingUriMessage.data ∧
    "MONGODB_DB_NAME".data <:+: missingDbNameMessage.data := by
  have hDb : w.cache.cachedDb = none := by rw [hEmpty]
  exact ⟨connect_missing_uri driver env w hDb, connect_missing_dbName driver env w hDb,
    fun _ => ⟨rfl, rfl⟩, by decide, by decide, by decide⟩

/-- Witness of C11: at module load with nothing set the error names `MONGODB_URI`, and with
only the URI set it names `MONGODB_DB_NAME`. -/
theorem connect_missing_configuration_witness :
    connectToDatabase sampleDriver emptyEnv initialWorld =
        (initialWorld, .rejected (MongoConfigurationError missingUriMessage none)) ∧
      connectToDatabase sampleDriver
          (setVar emptyEnv .MONGODB_URI (some "mongodb://localhost:27017")) initialWorld =
        (initialWorld, .rejected (MongoConfigurationError missingDbNameMessage none)) :=
  ⟨(connect_missing_configuration sampleDriver emptyEnv initialWorld rfl).1 (by decide),
    (connect_missing_configuration sampleDriver _ initialWorld rfl).2.1 (by decide)
      (by decide)⟩

theorem connectAll_memoized (driver : Driver) (envs : List Env) (w : World) (k : Nat)
    (hDb : w.cache.cachedDb = none) (hPromise : w.cache.clientPromise = some k)
    (h : ∀ e ∈ envs, truthy (e .MONGODB_URI) = true ∧ truthy (e .MONGODB_DB_NAME) = true) :
    connectAll driver envs w = (w, List.replicate envs.length (.following k)) := by
  induction envs with
  | nil => rfl
  | cons env rest ih =>
    have hfirst := connect_memoized driver env w k hDb hPromise
      (h env (List.mem_cons_self env rest)).1 (h env (List.mem_cons_self env rest)).2
    have hrest := ih (fun e he => h e (List.mem_cons_of_mem env he))
    simp [connectAll, hfirst, hrest, List.replicate_succ]

/-- C12 as stated fails: two calls made one after the other at module load with
`MONGODB_URI=localhost:27017` and `MONGODB_DB_NAME=app`, both required variables present,
are each rejected by the constructor: no attempt is recorded, nothing is memoized, and
neither call follows a memoized promise. -/
theorem single_flight_counterexample :
    truthy (schemelessEnv .MONGODB_URI) = true ∧
      truthy (schemelessEnv .MONGODB_DB_NAME) = true ∧
      connectAll sampleDriver [schemelessEnv, schemelessEnv] initialWorld =
        (initialWorld, [.rejected schemeError, .rejected schemeError]) := by
  decide

/-- C12, amended: while a promise is memoized a call of `connectToDatabase` leaves the
world as it is, so it constructs no client and records no attempt; calls made one after the
other from the empty cache, each with both required variables present, the constructor
accepting the URI and options of the first, record exactly one attempt (that of the first
call) and all follow the promise of that attempt, hence settle alike; and a call from the
empty cache whose constructor throws is rejected with that error and leaves the world
unchanged, so nothing is memoized. -/
theorem single_flight :
    (∀ (driver : Driver) (env : Env) (w : World) (k : Nat),
      w.cache.clientPromise = some k → (connectToDatabase driver env w).1 = w) ∧
    (∀ (driver : Driver) (env : Env) (envs : List Env) (w : World) (uri : String),
      w.cache = ⟨none, none, none⟩ →
      (∀ e ∈ env :: envs,
        truthy (e .MONGODB_URI) = true ∧ truthy (e .MONGODB_DB_NAME) = true) →
      env .MONGODB_URI = some uri →
      driver.newClient uri (buildMongoClientOptions env) = .ok () →
      (connectAll driver (env :: envs) w).1 = (connectToDatabase driver env w).1 ∧
      (connectAll driver (env :: envs) w).1.attempts.length = w.attempts.length + 1 ∧
      (connectAll driver (env :: envs) w).2 =
        List.replicate (envs.length + 1) (.following w.attempts.length) ∧
      ∀ r ∈ (connectAll driver (env :: envs) w).2, ∀ w2 : World,
        r.settled w2 = (CallResult.following w.attempts.length).settled w2) ∧
    (∀ (driver : Driver) (env : Env) (w : World) (uri : String) (e : JSError),
      w.cache = ⟨none, none, none⟩ →
      truthy (env .MONGODB_URI) = true → truthy (env .MONGODB_DB_NAME) = true →
      env .MONGODB_URI = some uri →
      driver.newClient uri (buildMongoClientOptions env) = .error e →
      connectToDatabase driver env w = (w, .rejected e)) := by
  refine ⟨connect_world_unchanged, fun driver env envs w uri hEmpty h hUriEq hNew => ?_,
    fun driver env w uri e hEmpty hUri hName hUriEq hNew => ?_⟩
  · have hDb : w.cache.cachedDb = none := by rw [hEmpty]
    obtain ⟨hUri, hName⟩ := h env (List.mem_cons_self env envs)
    obtain ⟨name, hNameEq, hNameNe⟩ := truthy_eq_some _ hName
    have hUriNe : uri ≠ "" := by
      obtain ⟨v, hv, hne⟩ := truthy_eq_some _ hUri
      rw [hUriEq] at hv
      rw [Option.some.inj hv]
      exact hne
    have hfirst :=
      connect_new_attempt driver env w uri name hEmpty hUriEq hUriNe hNameEq hNameNe hNew
    have hrest := connectAll_memoized driver envs (connectToDatabase driver env w).1
      w.attempts.length (by rw [hfirst]) (by rw [hfirst])
      (fun e he => h e (List.mem_cons_of_mem env he))
    have hall : connectAll driver (env :: envs) w =
        ((connectToDatabase driver env w).1,
          List.replicate (envs.length + 1) (.following w.attempts.length)) := by
      simp only [connectAll, hrest, List.replicate_succ]
      rw [hfirst]
    rw [hall]
    refine ⟨rfl, ?_, rfl, fun r hr w2 => ?_⟩
    · rw [hfirst]; simp
    · rw [List.eq_of_mem_replicate hr]
  · obtain ⟨name, hNameEq, hNameNe⟩ := truthy_eq_some _ hName
    have hUriNe : uri ≠ "" := by
      obtain ⟨v, hv, hne⟩ := truthy_eq_some _ hUri
      rw [hUriEq] at hv
      rw [Option.some.inj hv]
      exact hne
    exact connect_constructor_throws driver env w uri name e (by rw [hEmpty])
      (by rw [hEmpty]) hUriEq hUriNe hNameEq hNameNe hNew

/-- Witness of C12 (amended): three calls at module load with the sample environment
record one attempt and all follow promise 0. -/
theorem single_flight_witness :
    (connectAll sampleDriver [sampleEnv, sampleEnv, sampleEnv] initialWorld).1 =
        (connectToDatabase sampleDriver sampleEnv initialWorld).1 ∧
      (connectAll sampleDriver [sampleEnv, sampleEnv, sampleEnv] initialWorld).2 =
        [.following 0, .following 0, .following 0] :=
  ⟨(single_flight.2.1 sampleDriver sampleEnv [sampleEnv, sampleEnv] initialWorld
      "mongodb://localhost:27017" rfl (by decide) (by decide) rfl).1,
    (single_flight.2.1 sampleDriver sampleEnv [sampleEnv, sampleEnv] initialWorld
      "mongodb://localhost:27017" rfl (by decide) (by decide) rfl).2.2.1⟩

/-- C13 as stated fails: with an attempt pending (no database cached, promise 0
memoized), a call made when `MONGODB_URI` is no longer set is rejected with the
`MongoConfigurationError` for the missing URI instead of following promise 0. -/
theorem connecting_validation_counterexample :
    (connectToDatabase sampleDriver sampleEnv initialWorld).1.cache = ⟨none, none, some 0⟩ ∧
      (connectToDatabase sampleDriver emptyEnv
        (connectToDatabase sampleDriver sampleEnv initialWorld).1).2 =
        .rejected (MongoConfigurationError missingUriMessage none) := by
  decide

/-- C13, amended: with an attempt pending, `connectToDatabase` validates the two required
variables as it does from the empty cache: when both are present it returns the memoized
promise, when `MONGODB_URI` is missing it is rejected with the error naming it, and when
only `MONGODB_DB_NAME` is missing with the error naming that; the world is unchanged in all
three cases. -/
theorem connecting_validated (driver : Driver) (env : Env) (w : World) (k : Nat)
    (hDb : w.cache.cachedDb = none) (hPromise : w.cache.clientPromise = some k) :
    (truthy (env .MONGODB_URI) = true → truthy (env .MONGODB_DB_NAME) = true →
      connectToDatabase driver env w = (w, .following k)) ∧
    (truthy (env .MONGODB_URI) = false →
      connectToDatabase driver env w =
        (w, .rejected (MongoConfigurationError missingUriMessage none))) ∧
    (truthy (env .MONGODB_URI) = true → truthy (env .MONGODB_DB_NAME) = false →
      connectToDatabase driver env w =
        (w, .rejected (MongoConfigurationError missingDbNameMessage none))) :=
  ⟨connect_memoized driver env w k hDb hPromise, connect_missing_uri driver env w hDb,
    connect_missing_dbName driver env w hDb⟩

/-- Witness of C13 (amended): a second call with the sample environment while attempt 0 is
pending follows promise 0 and changes nothing. -/
theorem connecting_validated_witness :
    connectToDatabase sampleDriver sampleEnv
        (connectToDatabase sampleDriver sampleEnv initialWorld).1 =
      ((connectToDatabase sampleDriver sampleEnv initialWorld).1, .following 0) :=
  (connecting_validated sampleDriver sampleEnv
    (connectToDatabase sampleDriver sampleEnv initialWorld).1 0
    (by decide) (by decide)).1 (by decide) (by decide)

/-- C14: with a database cached, `connectToDatabase` returns the pair of `cachedClient` and
`cachedDb` for every environment, also one without the required variables, and returns the
world as it was: nothing is validated, no attempt is recorded, no variable is assigned. -/
theorem connect_ready (driver : Driver) (env : Env) (w : World) (c : Client) (d : Db)
    (hClient : w.cache.cachedClient = some c) (hDb : w.cache.cachedDb = some d) :
    connectToDatabase driver env w = (w, .fulfilled ⟨some c, some d⟩) := by
  rw [connect_cached driver env w d hDb, hClient]

/-- Witness of C14: after the sample attempt succeeded with client 7, a call with the empty
environment returns the cached pair. -/
theorem connect_ready_witness :
    connectToDatabase sampleDriver emptyEnv readyWorld =
      (readyWorld, .fulfilled ⟨some ⟨7⟩, some ⟨107⟩⟩) :=
  connect_ready sampleDriver emptyEnv readyWorld ⟨7⟩ ⟨107⟩ (by decide) (by decide)

theorem onFailed_cache (e : JSError) (cache : Cache) :
    (onFailed e cache).1 = { cache with clientPromise := none } := by
  unfold onFailed
  split_ifs <;> rfl

theorem onFailed_outcome (e : JSError) (cache : Cache) :
    (onFailed e cache).2 =
      .rejected
        (if e.name = "MongoServerSelectionError" ∧
            e.cause.bind JSError.code = some "ERR_SSL_TLSV1_ALERT_INTERNAL_ERROR" then
          MongoConfigurationError tlsGuidanceMessage (some e)
        else e) := by
  unfold onFailed
  split_ifs <;> rfl

theorem settle_pending_failed (driver : Driver) (k : Nat) (w : World) (a : Attempt)
    (e : JSError) (hk : w.attempts[k]? = some a) (ha : a.outcome = none) :
    settle driver k (.error e) w =
      ⟨(onFailed e w.cache).1,
        w.attempts.set k { a with outcome := some (onFailed e w.cache).2 }⟩ := by
  simp [settle, hk, ha]

theorem settle_pending_db_failed (driver : Driver) (k : Nat) (w : World) (a : Attempt)
    (c : Client) (e : JSError) (hk : w.attempts[k]? = some a) (ha : a.outcome = none)
    (hdb : driver.db c a.dbName = .error e) :
    settle driver k (.ok c) w =
      ⟨(onFailed e { w.cache with cachedClient := some c }).1,
        w.attempts.set k
          { a with outcome := some (onFailed e { w.cache with cachedClient := some c }).2 }⟩ := by
  simp [settle, hk, ha, onConnected, hdb]

theorem following_settled_set (k : Nat) (attempts : List Attempt) (a b : Attempt)
    (hk : attempts[k]? = some a) (cache : Cache) :
    (CallResult.following k).settled ⟨cache, attempts.set k b⟩ = b.outcome := by
  have hlt : k < attempts.length := by
    by_contra hge
    rw [List.getElem?_eq_none (by omega)] at hk
    exact Option.noConfusion hk
  simp [CallResult.settled, hlt]

theorem connect_rejected_resets (driver : Driver) (env : Env) (w : World)
    (uri name : String) (e : JSError) (hEmpty : w.cache = ⟨none, none, none⟩)
    (hUri : env .MONGODB_URI = some uri) (hUriNe : uri ≠ "")
    (hName : env .MONGODB_DB_NAME = some name) (hNameNe : name ≠ "")
    (hNew : driver.newClient uri (buildMongoClientOptions env) = .ok ()) :
    (settle driver w.attempts.length (.error e) (connectToDatabase driver env w).1).cache =
        ⟨none, none, none⟩ ∧
      (settle driver w.attempts.length (.error e)
        (connectToDatabase driver env w).1).attempts.length = w.attempts.length + 1 ∧
      (connectToDatabase driver env
        (settle driver w.attempts.length (.error e) (connectToDatabase driver env w).1)).2 =
          .following (w.attempts.length + 1) := by
  rw [connect_new_attempt driver env w uri name hEmpty hUri hUriNe hName hNameNe hNew]
  rw [settle_pending_failed driver w.attempts.length _
    ⟨uri, buildMongoClientOptions env, name, none⟩ e (by simp) rfl]
  simp only [onFailed_cache]
  refine ⟨?_, ?_, ?_⟩
  · trivial
  · simp
  · simp [connectToDatabase, hUri, hName, truthy, hUriNe, hNameNe, hNew]

/-- C15 at its failing input: the attempt made at module load with the database name
`shop.items` connects with client 7, `db` throws, the memoized promise is rejected with
that error and `clientPromise` is cleared, but `cachedClient` still holds client 7: the
state is not the empty one. -/
theorem db_failure_not_reset :
    (CallResult.following 0).settled
        (settle dotDriver 0 (.ok ⟨7⟩)
          (connectToDatabase dotDriver dottedEnv initialWorld).1) =
      some (.rejected (.plain "MongoInvalidArgumentError"
        "Database names cannot contain the character '.'" none)) ∧
    (settle dotDriver 0 (.ok ⟨7⟩)
        (connectToDatabase dotDriver dottedEnv initialWorld).1).cache =
      ⟨some ⟨7⟩, none, none⟩ := by
  decide

theorem cause_ne_self (e : JSError) : e.cause ≠ some e := by
  cases e with
  | plain name message code => simp [JSError.cause]
  | caused name message code cause =>
    simp only [JSError.cause, ne_eq, Option.some.injEq]
    intro h
    have hsize := congrArg sizeOf h
    simp at hsize

set_option maxRecDepth 4000 in
theorem tlsGuidance_mentions :
    "MONGODB_TLS_INSECURE".data <:+: tlsGuidanceMessage.data ∧
      "MONGODB_TLS_CA_FILE".data <:+: tlsGuidanceMessage.data := by
  decide

/-- C16: when the `connect()` of a pending attempt fails with error `e`, its promise is
rejected with a `MongoConfigurationError` that carries the guidance text (which mentions
`MONGODB_TLS_INSECURE` and `MONGODB_TLS_CA_FILE`) and has `e` as cause exactly when `e` is
named `MongoServerSelectionError` and its cause has code
`ERR_SSL_TLSV1_ALERT_INTERNAL_ERROR`; for every other `e` it is rejected with `e` itself. -/
theorem connect_error_translation (driver : Driver) (k : Nat) (w : World) (a : Attempt)
    (e : JSError) (hk : w.attempts[k]? = some a) (ha : a.outcome = none) :
    ∃ received,
      (CallResult.following k).settled (settle driver k (.error e) w) =
        some (.rejected received) ∧
      ((e.name = "MongoServerSelectionError" ∧
          e.cause.bind JSError.code = some "ERR_SSL_TLSV1_ALERT_INTERNAL_ERROR") →
        received = MongoConfigurationError tlsGuidanceMessage (some e)) ∧
      (¬ (e.name = "MongoServerSelectionError" ∧
          e.cause.bind JSError.code = some "ERR_SSL_TLSV1_ALERT_INTERNAL_ERROR") →
        received = e) ∧
      ((received.name = "MongoConfigurationError" ∧ received.message = tlsGuidanceMessage ∧
          received.cause = some e) ↔
        (e.name = "MongoServerSelectionError" ∧
          e.cause.bind JSError.code = some "ERR_SSL_TLSV1_ALERT_INTERNAL_ERROR")) ∧
      "MONGODB_TLS_INSECURE".data <:+: tlsGuidanceMessage.data ∧
      "MONGODB_TLS_CA_FILE".data <:+: tlsGuidanceMessage.data := by
  refine ⟨if e.name = "MongoServerSelectionError" ∧
      e.cause.bind JSError.code = some "ERR_SSL_TLSV1_ALERT_INTERNAL_ERROR" then
        MongoConfigurationError tlsGuidanceMessage (some e) else e,
    ?_, ?_, ?_, ?_, tlsGuidance_mentions.1, tlsGuidance_mentions.2⟩
  · rw [settle_pending_failed driver k w a e hk ha, following_settled_set k _ a _ hk,
      onFailed_outcome]
  · intro h
    rw [if_pos h]
  · intro h
    rw [if_neg h]
  · constructor
    · intro h
      by_contra hc
      rw [if_neg hc] at h
      exact cause_ne_self e h.2.2
    · intro h
      rw [if_pos h]
      exact ⟨rfl, rfl, rfl⟩

/-- Witness of C16: the sample attempt fails with the recognised TLS alert and the caller
receives the `MongoConfigurationError` wrapping it. -/
theorem connect_error_translation_witness :
    ∃ received,
      (CallResult.following 0).settled
          (settle sampleDriver 0 (.error tlsAlertError)
            (connectToDatabase sampleDriver sampleEnv initialWorld).1) =
        some (.rejected received) ∧
        received = MongoConfigurationError tlsGuidanceMessage (some tlsAlertError) :=
  let ⟨received, h1, h2, _⟩ :=
    connect_error_translation sampleDriver 0
      (connectToDatabase sampleDriver sampleEnv initialWorld).1
      ⟨"mongodb://localhost:27017", buildMongoClientOptions sampleEnv, "app", none⟩
      tlsAlertError (by decide) rfl
  ⟨received, h1, h2 (by decide)⟩

/-- C17: `getDb` returns a handle exactly when one is cached, and then that handle; with
no database cached it throws; it never changes the world, so it records no attempt; and
after a successful connect from the empty cache it returns the handle that call resolved
to. -/
theorem getDb_cached_only :
    (∀ (w : World) (d : Db), (getDb w).2 = .ok d ↔ w.cache.cachedDb = some d) ∧
    (∀ w : World, w.cache.cachedDb = none →
      (getDb w).2 = .error (.plain "Error" notInitializedMessage none)) ∧
    (∀ w : World, (getDb w).1 = w) ∧
    (∀ (driver : Driver) (env : Env) (w : World) (uri name : String) (c : Client) (d : Db),
      w.cache = ⟨none, none, none⟩ → env .MONGODB_URI = some uri → uri ≠ "" →
      env .MONGODB_DB_NAME = some name → name ≠ "" →
      driver.newClient uri (buildMongoClientOptions env) = .ok () →
      driver.db c name = .ok d →
      (connectToDatabase driver env w).2.settled
          (settle driver w.attempts.length (.ok c) (connectToDatabase driver env w).1) =
        some (.fulfilled ⟨some c, some d⟩) ∧
      (getDb
        (settle driver w.attempts.length (.ok c) (connectToDatabase driver env w).1)).2 =
        .ok d) := by
  refine ⟨fun w d => ?_, fun w h => ?_, fun w => ?_, ?_⟩
  · unfold getDb
    cases h : w.cache.cachedDb <;> simp
  · simp [getDb, h]
  · unfold getDb
    cases w.cache.cachedDb <;> rfl
  · intro driver env w uri name c d hEmpty hUri hUriNe hName hNameNe hNew hdb
    rw [connect_new_attempt driver env w uri name hEmpty hUri hUriNe hName hNameNe hNew]
    have hs := settle_last_pending driver ⟨none, none, some w.attempts.length⟩ w.attempts
      ⟨uri, buildMongoClientOptions env, name, none⟩ rfl c d hdb
    simp only [] at hs ⊢
    rw [hs]
    exact ⟨by simp [CallResult.settled], rfl⟩

/-- Witness of C17: `getDb` throws at module load and returns handle 107 in the sample
ready world. -/
theorem getDb_cached_only_witness :
    (getDb initialWorld).2 = .error (.plain "Error" notInitializedMessage none) ∧
      (getDb readyWorld).2 = .ok ⟨107⟩ :=
  ⟨getDb_cached_only.2.1 initialWorld rfl,
    (getDb_cached_only.1 readyWorld ⟨107⟩).mpr (by decide)⟩

/-- C18 as stated fails: in the sample ready world `closeDatabaseConnection` calls `close()`
on client 7, and when that `close()` is rejected the call is rejected with the same error
and the three module variables keep their values. -/
theorem close_failure_counterexample :
    closeDatabaseConnection readyWorld = (readyWorld, .awaiting ⟨7⟩) ∧
      closeSettled (.error closeError) (closeDatabaseConnection readyWorld).1 =
        (readyWorld, .error closeError) ∧
      readyWorld.cache = ⟨some ⟨7⟩, some ⟨107⟩, some 0⟩ :=
  ⟨by decide, rfl, by decide⟩

/-- C18, amended: with a client cached, `closeDatabaseConnection` calls `close()` on it;
when that `close()` succeeds the three module variables are cleared and the call succeeds;
when it fails the call is rejected with that error and the world is unchanged. -/
theorem close_from_ready (w : World) (c : Client) (hClient : w.cache.cachedClient = some c) :
    closeDatabaseConnection w = (w, .awaiting c) ∧
      closeSettled (.ok ()) (closeDatabaseConnection w).1 =
        (⟨⟨none, none, none⟩, w.attempts⟩, .ok ()) ∧
      ∀ e, closeSettled (.error e) (closeDatabaseConnection w).1 = (w, .error e) := by
  have h : closeDatabaseConnection w = (w, .awaiting c) := by
    simp [closeDatabaseConnection, hClient]
  rw [h]
  exact ⟨rfl, rfl, fun _ => rfl⟩

/-- Witness of C18 (amended) in the sample ready world. -/
theorem close_from_ready_witness :
    closeDatabaseConnection readyWorld = (readyWorld, .awaiting ⟨7⟩) ∧
      closeSettled (.ok ()) (closeDatabaseConnection readyWorld).1 =
        (⟨⟨none, none, none⟩, readyWorld.attempts⟩, .ok ()) :=
  ⟨(close_from_ready readyWorld ⟨7⟩ (by decide)).1,
    (close_from_ready readyWorld ⟨7⟩ (by decide)).2.1⟩

theorem closeCompleted_cached (result : Except JSError Unit) (w : World) (c : Client)
    (hClient : w.cache.cachedClient = some c) :
    closeCompleted result w = ((closeSettled result w).1, (closeSettled result w).2, some c) := by
  simp [closeCompleted, closeDatabaseConnection, hClient]

theorem closeCompleted_no_client (result : Except JSError Unit) (w : World)
    (hClient : w.cache.cachedClient = none) :
    closeCompleted result w = (w, .ok (), none) := by
  simp [closeCompleted, closeDatabaseConnection, hClient]

theorem connect_following_from_empty (driver : Driver) (env : Env) (w : World) (k : Nat)
    (hEmpty : w.cache = ⟨none, none, none⟩)
    (h : (connectToDatabase driver env w).2 = .following k) :
    ∃ uri name, env .MONGODB_URI = some uri ∧ uri ≠ "" ∧ env .MONGODB_DB_NAME = some name ∧
      name ≠ "" ∧ driver.newClient uri (buildMongoClientOptions env) = .ok () ∧
      k = w.attempts.length := by
  have hDb : w.cache.cachedDb = none := by rw [hEmpty]
  have hPromise : w.cache.clientPromise = none := by rw [hEmpty]
  cases hU : truthy (env .MONGODB_URI) with
  | false =>
    rw [connect_missing_uri driver env w hDb hU] at h
    exact CallResult.noConfusion h
  | true =>
    cases hN : truthy (env .MONGODB_DB_NAME) with
    | false =>
      rw [connect_missing_dbName driver env w hDb hU hN] at h
      exact CallResult.noConfusion h
    | true =>
      obtain ⟨uri, hUri, hUriNe⟩ := truthy_eq_some _ hU
      obtain ⟨name, hName, hNameNe⟩ := truthy_eq_some _ hN
      cases hNew : driver.newClient uri (buildMongoClientOptions env) with
      | error e =>
        rw [connect_constructor_throws driver env w uri name e hDb hPromise hUri hUriNe hName
          hNameNe hNew] at h
        exact CallResult.noConfusion h
      | ok u =>
        rw [connect_new_attempt driver env w uri name hEmpty hUri hUriNe hName hNameNe
          hNew] at h
        exact ⟨uri, name, hUri, hUriNe, hName, hNameNe, hNew,
          (CallResult.following.inj h).symm⟩

/-- C19: with a client `c` cached, a call of `closeDatabaseConnection` calls `close()` on
`c` and, when that succeeds, succeeds and leaves the three module variables as at module
load; the next `connectToDatabase` then records a new attempt and memoizes it, in general
when the required variables are present and the constructor accepts them, and in
particular with the environment of an earlier call that had opened an attempt from the
empty cache; a close with no client cached calls no `close()`, succeeds and changes
nothing; and a second close after a successful one is such a no-op. -/
theorem close_returns_to_empty :
    (∀ (w : World) (c : Client), w.cache.cachedClient = some c →
      closeCompleted (.ok ()) w = (⟨initialWorld.cache, w.attempts⟩, .ok (), some c)) ∧
    (∀ (driver : Driver) (w : World) (c : Client) (env : Env) (uri name : String),
      w.cache.cachedClient = some c → env .MONGODB_URI = some uri → uri ≠ "" →
      env .MONGODB_DB_NAME = some name → name ≠ "" →
      driver.newClient uri (buildMongoClientOptions env) = .ok () →
      connectToDatabase driver env (closeCompleted (.ok ()) w).1 =
        (⟨⟨none, none, some w.attempts.length⟩,
            w.attempts ++ [⟨uri, buildMongoClientOptions env, name, none⟩]⟩,
          .following w.attempts.length)) ∧
    (∀ (driver : Driver) (env : Env) (w : World) (k : Nat) (c : Client),
      w.cache = ⟨none, none, none⟩ →
      (connectToDatabase driver env w).2 = .following k →
      (settle driver k (.ok c) (connectToDatabase driver env w).1).cache.cachedClient =
        some c →
      (closeCompleted (.ok ())
          (settle driver k (.ok c) (connectToDatabase driver env w).1)).2.2 = some c ∧
        (connectToDatabase driver env
          (closeCompleted (.ok ())
            (settle driver k (.ok c) (connectToDatabase driver env w).1)).1).2 =
          .following (k + 1) ∧
        (connectToDatabase driver env
          (closeCompleted (.ok ())
            (settle driver k (.ok c)
              (connectToDatabase driver env w).1)).1).1.attempts.length =
          w.attempts.length + 2) ∧
    (∀ (w : World) (result : Except JSError Unit), w.cache.cachedClient = none →
      closeCompleted result w = (w, .ok (), none)) ∧
    (∀ (w : World) (c : Client) (result : Except JSError Unit),
      w.cache.cachedClient = some c →
      closeCompleted result (closeCompleted (.ok ()) w).1 =
        ((closeCompleted (.ok ()) w).1, .ok (), none)) := by
  have hclose : ∀ (w : World) (c : Client), w.cache.cachedClient = some c →
      closeCompleted (.ok ()) w = (⟨⟨none, none, none⟩, w.attempts⟩, .ok (), some c) := by
    intro w c hClient
    rw [closeCompleted_cached _ w c hClient]
    rfl
  refine ⟨hclose, ?_, ?_, fun w result h => closeCompleted_no_client result w h, ?_⟩
  · intro driver w c env uri name hClient hUri hUriNe hName hNameNe hNew
    rw [hclose w c hClient]
    exact connect_new_attempt driver env ⟨⟨none, none, none⟩, w.attempts⟩ uri name rfl hUri
      hUriNe hName hNameNe hNew
  · intro driver env w k c hEmpty hFollow hClient
    obtain ⟨uri, name, hUri, hUriNe, hName, hNameNe, hNew, hk⟩ :=
      connect_following_from_empty driver env w k hEmpty hFollow
    subst hk
    rw [hclose _ c hClient]
    have hlen : (settle driver w.attempts.length (.ok c)
        (connectToDatabase driver env w).1).attempts.length = w.attempts.length + 1 := by
      rw [connect_new_attempt driver env w uri name hEmpty hUri hUriNe hName hNameNe hNew]
      unfold settle
      simp only [List.getElem?_concat_length]
      split_ifs <;> simp
    have hnext := connect_new_attempt driver env
      ⟨⟨none, none, none⟩, (settle driver w.attempts.length (.ok c)
        (connectToDatabase driver env w).1).attempts⟩ uri name rfl hUri hUriNe hName hNameNe
      hNew
    simp only [] at hnext ⊢
    rw [hnext]
    simp [hlen]
  · intro w c result hClient
    rw [hclose w c hClient]
    exact closeCompleted_no_client result _ rfl

/-- Witness of C19: closing the sample ready world calls `close()` on client 7 and clears
the cache, and connecting again with the sample environment records a second attempt,
numbered 1. -/
theorem close_returns_to_empty_witness :
    closeCompleted (.ok ()) readyWorld =
        (⟨initialWorld.cache, readyWorld.attempts⟩, .ok (), some ⟨7⟩) ∧
      (connectToDatabase sampleDriver sampleEnv (closeCompleted (.ok ()) readyWorld).1).2 =
        .following 1 :=
  ⟨close_returns_to_empty.1 readyWorld ⟨7⟩ (by decide),
    (close_returns_to_empty.2.2.1 sampleDriver sampleEnv initialWorld 0 ⟨7⟩ rfl (by decide)
      (by decide)).2.1⟩

theorem connect_keeps_pair (driver : Driver) (env : Env) (w : World) :
    (connectToDatabase driver env w).1.cache.cachedClient = w.cache.cachedClient ∧
      (connectToDatabase driver env w).1.cache.cachedDb = w.cache.cachedDb := by
  cases hP : w.cache.clientPromise <;>
    cases hNew : driver.newClient ((env .MONGODB_URI).getD "") (buildMongoClientOptions env) <;>
    simp only [connectToDatabase, hP, hNew] <;> split_ifs <;> exact ⟨rfl, rfl⟩

theorem paired_of_eq (driver : Driver) (c1 c2 : Cache)
    (hc : c2.cachedClient = c1.cachedClient) (hd : c2.cachedDb = c1.cachedDb)
    (h : Paired driver c1) : Paired driver c2 := by
  unfold Paired at h ⊢
  rw [hc, hd]
  exact h

theorem settle_keeps_paired (driver : Driver)
    (htotal : ∀ c name, ∃ d, driver.db c name = .ok d) (k : Nat)
    (result : Except JSError Client) (w : World) (h : Paired driver w.cache) :
    Paired driver (settle driver k result w).cache := by
  unfold settle
  cases hk : w.attempts[k]? with
  | none => exact h
  | some a =>
    simp only []
    split_ifs with ha
    · exact h
    · cases result with
      | error e =>
        simp only [onFailed_cache]
        exact paired_of_eq driver w.cache _ rfl rfl h
      | ok c =>
        obtain ⟨d, hd⟩ := htotal c a.dbName
        simp only [onConnected, hd]
        exact Or.inr ⟨c, d, a.dbName, rfl, rfl, hd⟩

theorem step_keeps_paired (driver : Driver)
    (htotal : ∀ c name, ∃ d, driver.db c name = .ok d) (w : World) (event : Event)
    (h : Paired driver w.cache) : Paired driver (step driver w event).cache := by
  cases event with
  | connect env =>
    exact paired_of_eq driver w.cache _ (connect_keeps_pair driver env w).1
      (connect_keeps_pair driver env w).2 h
  | connectSettled k result => exact settle_keeps_paired driver htotal k result w h
  | getDb =>
    simp only [step, getDb]
    cases w.cache.cachedDb <;> exact h
  | close =>
    simp only [step, closeDatabaseConnection]
    cases w.cache.cachedClient <;> exact h
  | closeSettled result =>
    cases result with
    | error e => exact h
    | ok u => exact Or.inl ⟨rfl, rfl⟩

theorem run_keeps_paired (driver : Driver)
    (htotal : ∀ c name, ∃ d, driver.db c name = .ok d) (events : List Event) (w : World)
    (h : Paired driver w.cache) : Paired driver (run driver w events).cache := by
  induction events generalizing w with
  | nil => exact h
  | cons event rest ih =>
    exact ih (step driver w event) (step_keeps_paired driver htotal w event h)

/-- C20 at its failing input: from module load, a call of `connectToDatabase` with the
database name `shop.items` and then the success of its `connect()` with client 7, for
which `db` throws, reach a world where `cachedClient` is client 7 and `cachedDb` is
`null`: the cache holds half a pair. -/
theorem pairing_broken_by_db_failure :
    (run dotDriver initialWorld
        [.connect dottedEnv, .connectSettled 0 (.ok ⟨7⟩)]).cache = ⟨some ⟨7⟩, none, none⟩ ∧
      ¬ Paired dotDriver
        (run dotDriver initialWorld [.connect dottedEnv, .connectSettled 0 (.ok ⟨7⟩)]).cache := by
  have h : (run dotDriver initialWorld
      [.connect dottedEnv, .connectSettled 0 (.ok ⟨7⟩)]).cache = ⟨some ⟨7⟩, none, none⟩ := by
    decide
  refine ⟨h, ?_⟩
  rw [h]
  simp [Paired]

end Database
